import Mathlib

/-
Verification of the conversational data-transform agent:
a shallow embedding of `src/agents/transform_agent.py` and
`src/services/llm_service.py`, with the Databricks SQL backend and the
Claude LLM endpoint modelled as environment functions returning
`Except String` (an exception is an `.error` carrying the Python
exception's string rendering).

Python strings are modelled as Lean `String` (a list of characters);
`str.lower`, `str.strip`, `in` (substring), `str.split`, `str.replace`
and the `re` patterns used by the agent are embedded below.  ASCII
case-folding is used, matching every string the agent compares against.
-/

namespace DataAgent

/-! ### Python string primitives -/

/-- Whitespace characters recognised by Python's `str.strip` / `str.split`
(ASCII subset). -/
def pyIsWs (c : Char) : Bool :=
  c == ' ' || c == '\t' || c == '\n' || c == '\r' || c == '\x0b' || c == '\x0c'

/-- ASCII upper/lower case letter pairs, used to model `str.lower`. -/
def asciiLowerPairs : List (Char × Char) :=
  [('A','a'),('B','b'),('C','c'),('D','d'),('E','e'),('F','f'),('G','g'),
   ('H','h'),('I','i'),('J','j'),('K','k'),('L','l'),('M','m'),('N','n'),
   ('O','o'),('P','p'),('Q','q'),('R','r'),('S','s'),('T','t'),('U','u'),
   ('V','v'),('W','w'),('X','x'),('Y','y'),('Z','z')]

/-- Lower-case one character as Python `str.lower` does on ASCII. -/
def pyLowerChar (c : Char) : Char :=
  match asciiLowerPairs.find? (fun p => p.1 == c) with
  | some p => p.2
  | none => c

/-- Model of Python `str.lower` on the character list. -/
def pyLower (s : List Char) : List Char := s.map pyLowerChar

/-- Model of Python `str.strip` (drop leading and trailing whitespace). -/
def pyStrip (s : List Char) : List Char :=
  ((s.dropWhile pyIsWs).reverse.dropWhile pyIsWs).reverse

/-- String wrapper for `pyLower`. -/
def sLower (s : String) : String := ⟨pyLower s.data⟩

/-- String wrapper for `pyStrip`. -/
def sStrip (s : String) : String := ⟨pyStrip s.data⟩

/-- Does `p` start the list `s`?  (Model of Python `str.startswith`.) -/
def startsWithL : List Char → List Char → Bool
  | [], _ => true
  | _ :: _, [] => false
  | p :: ps, c :: cs => p == c && startsWithL ps cs

/-- Does `p` occur as a contiguous sublist of `s`?
(Model of the Python substring test `p in s`.) -/
def isSubstring (p : List Char) : List Char → Bool
  | [] => startsWithL p []
  | s@(_ :: t) => startsWithL p s || isSubstring p t

/-- String wrapper for `isSubstring`. -/
def isSubS (needle hay : String) : Bool := isSubstring needle.data hay.data

/-- String wrapper for `startsWithL`. -/
def startsWithS (p s : String) : Bool := startsWithL p.data s.data

/-- Auxiliary word counter: `inWord` records whether the previous character
was part of a word. -/
def wordsAux : List Char → Bool → Nat
  | [], _ => 0
  | c :: t, inWord =>
    if pyIsWs c then wordsAux t false
    else (if inWord then 0 else 1) + wordsAux t true

/-- Model of `len(s.split())`: the number of maximal non-whitespace runs. -/
def wordCount (s : List Char) : Nat := wordsAux s false

/-- Structural worker for `removeAllL`: the fuel starts at the input
length and strictly dominates it at every step, so the fuel-exhausted
equation is never reached. -/
def removeAllAux (pat : List Char) : Nat → List Char → List Char
  | 0, s => s
  | _, [] => []
  | fuel + 1, c :: t =>
    if startsWithL pat (c :: t) then
      match pat with
      | [] => c :: removeAllAux pat fuel t
      | _ :: ps => removeAllAux pat fuel (t.drop ps.length)
    else c :: removeAllAux pat fuel t

/-- Model of Python `s.replace(pat, "")` (remove every occurrence of `pat`,
scanning left to right and skipping past each removal). -/
def removeAllL (pat : List Char) (s : List Char) : List Char :=
  removeAllAux pat s.length s

/-- Split a character list at every occurrence of `sep`
(model of Python `str.split(sep)` for a one-character separator). -/
def splitOnChar (sep : Char) : List Char → List (List Char)
  | [] => [[]]
  | c :: t =>
    let r := splitOnChar sep t
    if c == sep then [] :: r
    else
      match r with
      | [] => [[c]]
      | h :: t2 => (c :: h) :: t2

/-- Characters matched by the regex class `\w` (ASCII model). -/
def isWordChar (c : Char) : Bool :=
  ('a' ≤ c && c ≤ 'z') || ('A' ≤ c && c ≤ 'Z') || ('0' ≤ c && c ≤ '9') || c == '_'

/-- Scanner for the leftmost match of `(\w+)\.(\w+)`: `run` is the reversed
word-character run immediately before the cursor; on the first dot flanked
by word characters the two maximal runs are returned as the groups. -/
def findDottedAux (run : List Char) : List Char → Option (List Char × List Char)
  | [] => none
  | c :: rest =>
    if c == '.' then
      match run, rest with
      | _ :: _, d :: _ =>
        if isWordChar d then some (run.reverse, rest.takeWhile isWordChar)
        else findDottedAux [] rest
      | _, _ => findDottedAux [] rest
    else if isWordChar c then findDottedAux (c :: run) rest
    else findDottedAux [] rest

/-- Model of `re.search(r'(\w+)\.(\w+)', s)`, returning the two groups of
the leftmost match. -/
def findDotted (s : List Char) : Option (String × String) :=
  (findDottedAux [] s).map (fun p => (⟨p.1⟩, ⟨p.2⟩))

/-- Chunk a reversed digit list into groups of three separated by commas
(helper for Python's `format(n, ',')`). -/
def commaChunks : List Char → List Char
  | [] => []
  | l =>
    if l.length ≤ 3 then l
    else (l.take 3) ++ (',' :: commaChunks (l.drop 3))
  termination_by l => l.length
  decreasing_by simp only [List.length_drop]; omega

/-- Digit-grouping of a natural number's decimal digits, three at a time
from the right. -/
def commaGroup (ds : List Char) : List Char :=
  (commaChunks ds.reverse).reverse

/-- Model of the Python format spec `{n:,}` for integers. -/
def commaFmt (n : Int) : String :=
  if n < 0 then ⟨'-' :: commaGroup (toString n.natAbs).data⟩
  else ⟨commaGroup (toString n.natAbs).data⟩

/-! ### Regular expressions

A Brzozowski-derivative matcher covering exactly the constructs used by
the agent's `re.search` patterns: literal characters, the class `\s`,
the wildcard `.` (which does not match a newline), concatenation,
alternation, Kleene star, an optional start anchor `^` and an end anchor
`$` (which in Python also matches just before a single trailing newline).
-/

/-- Character classes appearing in the agent's patterns. -/
inductive CK where
  | lit (c : Char)
  | ws
  | dot
  deriving DecidableEq

/-- Does a character class match a character? -/
def CK.matchesChar : CK → Char → Bool
  | .lit c, d => c == d
  | .ws, d => pyIsWs d
  | .dot, d => d != '\n'

/-- Regular-expression abstract syntax. -/
inductive RE where
  | nul
  | eps
  | cls (k : CK)
  | seq (a b : RE)
  | alt (a b : RE)
  | star (a : RE)
  deriving DecidableEq

/-- Does the regex accept the empty word? -/
def nullable : RE → Bool
  | .nul => false
  | .eps => true
  | .cls _ => false
  | .seq a b => nullable a && nullable b
  | .alt a b => nullable a || nullable b
  | .star _ => true

/-- Brzozowski derivative of a regex with respect to one character. -/
def deriv : RE → Char → RE
  | .nul, _ => .nul
  | .eps, _ => .nul
  | .cls k, c => if k.matchesChar c then .eps else .nul
  | .seq a b, c =>
    if nullable a then .alt (.seq (deriv a c) b) (deriv b c)
    else .seq (deriv a c) b
  | .alt a b, c => .alt (deriv a c) (deriv b c)
  | .star a, c => .seq (deriv a c) (.star a)

/-- End-anchor test: with `anchE` set, a match may only end at the end of
the input or just before a single trailing newline. -/
def endOk (anchE : Bool) : List Char → Bool
  | [] => true
  | ['\n'] => true
  | _ => !anchE

/-- Can the regex match some prefix of `t` (subject to the end anchor)? -/
def matchHere (r : RE) : List Char → Bool → Bool
  | [], _ => nullable r
  | c :: t, anchE =>
    (nullable r && endOk anchE (c :: t)) || matchHere (deriv r c) t anchE

/-- Can the regex match starting at any position of `s`? -/
def searchAt (r : RE) (anchE : Bool) : List Char → Bool
  | [] => matchHere r [] anchE
  | s@(_ :: t) => matchHere r s anchE || searchAt r anchE t

/-- One compiled `re.search` pattern: a body plus optional anchors. -/
structure Pat where
  anchoredStart : Bool
  body : RE
  anchoredEnd : Bool
  deriving DecidableEq

/-- Model of Python `re.search(pattern, s) is not None`. -/
def reSearch (p : Pat) (s : List Char) : Bool :=
  if p.anchoredStart then matchHere p.body s p.anchoredEnd
  else searchAt p.body p.anchoredEnd s

/-- A regex matching the literal character sequence `s`. -/
def strRE : List Char → RE
  | [] => .eps
  | c :: t => .seq (.cls (.lit c)) (strRE t)

/-- A regex matching a literal string. -/
def lits (s : String) : RE := strRE s.data

/-- Sequence a list of regexes. -/
def reSeq (l : List RE) : RE := l.foldr RE.seq RE.eps

/-- Alternation of a list of regexes. -/
def reAlts : List RE → RE
  | [] => .nul
  | [r] => r
  | r :: rest => .alt r (reAlts rest)

/-- The class `\s`. -/
def wsP : RE := .cls .ws

/-- The fragment `.*`. -/
def dotStar : RE := .star (.cls .dot)

/-- An optional group `( ... )?`. -/
def reOpt (r : RE) : RE := .alt .eps r

/-- Run a list of patterns, as the agent's pattern loops do: true iff
some pattern matches (`re.search` against the lower-cased message). -/
def patAny (pats : List Pat) (s : String) : Bool :=
  pats.any (fun p => reSearch p s.data)

/-! ### Agent pattern sets (from `TransformAgent._detect_intent`) -/

/-- Question indicators, in source order. -/
def question_patterns : List Pat :=
  [⟨true, reSeq [lits "what", wsP], false⟩,
   ⟨true, reSeq [lits "which", wsP], false⟩,
   ⟨true, reSeq [lits "how", wsP], false⟩,
   ⟨true, reSeq [lits "can you ", reAlts [lits "tell", lits "show", lits "list", lits "explain"]], false⟩,
   ⟨true, lits "tell me", false⟩,
   ⟨true, lits "show me", false⟩,
   ⟨true, reSeq [lits "list", wsP], false⟩,
   ⟨true, reSeq [lits "do", reOpt (lits "es"), wsP, dotStar, lits "?"], false⟩,
   ⟨true, reSeq [lits "is", wsP, dotStar, lits "?"], false⟩,
   ⟨true, reSeq [lits "are", wsP, dotStar, lits "?"], false⟩,
   ⟨false, lits "?", true⟩,
   ⟨false, reSeq [lits "what ", reAlts [lits "are", lits "is"], lits " ", reAlts [lits "the", lits "in"]], false⟩,
   ⟨false, lits "how many", false⟩,
   ⟨false, lits "tell me about", false⟩,
   ⟨false, lits "explain", false⟩,
   ⟨false, lits "describe", false⟩]

/-- Transform indicators, in source order. -/
def transform_patterns : List Pat :=
  [⟨false, reSeq [lits "clean", wsP], false⟩,
   ⟨false, reSeq [lits "transform", wsP], false⟩,
   ⟨false, reSeq [lits "convert", wsP], false⟩,
   ⟨false, reSeq [lits "create", wsP], false⟩,
   ⟨false, reSeq [lits "remove", wsP, dotStar, reAlts [lits "null", lits "duplicate", lits "dupe"]], false⟩,
   ⟨false, lits "dedupe", false⟩,
   ⟨false, lits "deduplicate", false⟩,
   ⟨false, lits "standardize", false⟩,
   ⟨false, lits "normalize", false⟩,
   ⟨false, lits "aggregate", false⟩,
   ⟨false, reSeq [lits "save ", reAlts [lits "to", lits "into"]], false⟩,
   ⟨false, reSeq [lits "move ", reAlts [lits "to", lits "into"]], false⟩,
   ⟨false, reSeq [lits "filter", wsP], false⟩,
   ⟨false, reSeq [reAlts [lits "remove", lits "drop", lits "delete"], wsP, dotStar, lits "rows"], false⟩,
   ⟨false, reSeq [reAlts [lits "add", lits "create"], wsP, dotStar, lits "column"], false⟩,
   ⟨false, reSeq [lits "rename", wsP], false⟩,
   ⟨false, reSeq [lits "cast", wsP], false⟩,
   ⟨false, reSeq [lits "join", wsP], false⟩,
   ⟨false, reSeq [lits "merge", wsP], false⟩]

/-- Generic action words used by the third intent-detection step. -/
def action_words : List String :=
  ["clean", "fix", "update", "change", "modify", "process"]

/-! ### Data model (from `databricks_service.py` and `llm_service.py`) -/

/-- One column of a table (`TableColumn` dataclass). -/
structure TableColumn where
  name : String
  data_type : String
  nullable : Bool
  comment : Option String

/-- Snapshot of a table's schema (`TableSchema` dataclass). -/
structure TableSchema where
  catalog : String
  schema : String
  table : String
  columns : List TableColumn
  row_count : Option Int

/-- The `full_name` property: `catalog.schema.table`. -/
def TableSchema.full_name (t : TableSchema) : String :=
  t.catalog ++ "." ++ t.schema ++ "." ++ t.table

/-- A database cell value as the agent observes it.  `COUNT` results are
integer cells; other values are modelled as integers, strings or NULL. -/
inductive Cell where
  | null
  | int (n : Int)
  | str (s : String)

/-- Python `str(v)` on a cell value. -/
def Cell.pyStr : Cell → String
  | .null => "None"
  | .int n => toString n
  | .str s => s

/-- Read an integer out of a cell; `COUNT(*)` always yields an integer
cell, so the default is never exercised on real query results. -/
def Cell.asIntD : Cell → Int
  | .int n => n
  | _ => 0

/-- Result of a SQL query (`QueryResult` dataclass). -/
structure QueryResult where
  columns : List String
  rows : List (List Cell)
  row_count : Int

/-- JSON values, as decoded by Python's `json.loads` (numbers are
modelled at the integer type the plan fields annotate). -/
inductive Json where
  | null
  | bool (b : Bool)
  | num (n : Int)
  | str (s : String)
  | arr (elems : List Json)
  | obj (fields : List (String × Json))

mutual

/-- Python `str()` of a decoded JSON value. -/
def Json.pyStr : Json → String
  | .null => "None"
  | .bool true => "True"
  | .bool false => "False"
  | .num n => toString n
  | .str s => s
  | .arr xs => "[" ++ String.intercalate ", " (Json.pyStrList xs) ++ "]"
  | .obj fs => "\x7b" ++ String.intercalate ", " (Json.pyStrFields fs) ++ "\x7d"

/-- Render each element of a JSON array. -/
def Json.pyStrList : List Json → List String
  | [] => []
  | j :: t => Json.pyStr j :: Json.pyStrList t

/-- Render each field of a JSON object. -/
def Json.pyStrFields : List (String × Json) → List String
  | [] => []
  | (k, v) :: t => (k ++ ": " ++ Json.pyStr v) :: Json.pyStrFields t

end

/-- Dictionary lookup on a decoded JSON object (`json.loads` keeps the
last of duplicate keys, hence the left fold). -/
def Json.lookup : Json → String → Option Json
  | .obj fs, k => fs.foldl (fun acc p => if p.1 == k then some p.2 else acc) none
  | _, _ => none

/-- Python's type name for a decoded JSON value. -/
def Json.pyTypeName : Json → String
  | .null => "NoneType"
  | .bool _ => "bool"
  | .num _ => "int"
  | .str _ => "str"
  | .arr _ => "list"
  | .obj _ => "dict"

/-- Python `data[k]` with a string key: on a dict a missing key raises
`KeyError(k)` (whose string rendering is the quoted key); on other
decoded values the subscript raises a `TypeError`. -/
def Json.item (j : Json) (k : String) : Except String Json :=
  match j with
  | .obj _ =>
    match j.lookup k with
    | some v => .ok v
    | none => .error ("'" ++ k ++ "'")
  | .str _ => .error "string indices must be integers"
  | .arr _ => .error "list indices must be integers or slices, not str"
  | _ => .error ("'" ++ j.pyTypeName ++ "' object is not subscriptable")

/-- Read a JSON value at the `Optional[int]` annotation of the plan. -/
def Json.asInt : Json → Option Int
  | .num n => some n
  | _ => none

/-- Read a JSON value at the `list[str]` annotation of the plan. -/
def Json.asStrList : Json → Option (List String)
  | .arr xs => some (xs.map Json.pyStr)
  | _ => none

/-- A planned transformation (`TransformPlan` dataclass). -/
structure TransformPlan where
  target_table : String
  sql : String
  transformations_applied : List String
  explanation : String
  estimated_rows_after : Option Int
  columns_modified : Option (List String)

/-- The Databricks SQL backend as seen through `DatabricksService`:
every operation either returns a value or raises (`.error` carries the
exception's string rendering).  `catalog` and `host` model the connection
settings the agent reads. -/
structure Db where
  catalog : String
  host : String
  list_tables : String → Except String (List String)
  table_exists : String → String → Bool
  get_table_schema : String → String → Bool → Except String TableSchema
  get_sample_data : String → String → Nat → Except String QueryResult
  execute_command : String → Except String Unit
  execute_query : String → Except String QueryResult

/-- The LLM backend as seen through `LLMService`: `call_claude` submits a
prompt (with a max-token budget) and returns raw text, and `json_loads`
models the Python standard-library JSON decoder that
`_parse_json_response` applies to the recovered payload. -/
structure Llm where
  call_claude : String → Nat → Except String String
  json_loads : String → Except String Json

/-! ### Prompt assembly (from `prompts/templates.py`) -/

/-- The `SCHEMA_TEMPLATE` / `COLUMN_TEMPLATE` assembly
(`build_schema_context`). -/
def build_schema_context (ts : TableSchema) : String :=
  let columns_str := String.intercalate "\n"
    (ts.columns.map (fun col => "  - " ++ col.name ++ ": " ++ col.data_type))
  "Table: " ++ ts.full_name ++ "\nTotal Rows: " ++ commaFmt ((ts.row_count).getD 0)
    ++ "\n\nColumns:\n" ++ columns_str

/-- Sample-row rendering (`build_sample_data_context`). -/
def build_sample_data_context (qr : QueryResult) : String :=
  match qr.rows with
  | [] => "(No sample data available)"
  | _ =>
    let header := String.intercalate " | " qr.columns
    let rowLines := qr.rows.map (fun row =>
      String.intercalate " | " (row.map (fun v =>
        match v with
        | .null => "NULL"
        | _ => v.pyStr)))
    String.intercalate "\n" (header :: (⟨List.replicate 80 '-'⟩ : String) :: rowLines)

/-- The full `TRANSFORM_PROMPT` with its placeholders substituted
(`build_transform_prompt`). -/
def build_transform_prompt (user_request : String) (table_schema : TableSchema)
    (sample_data : QueryResult) (target_schema : String) (catalog : String) : String :=
  let schema_context := build_schema_context table_schema
  let sample_context := build_sample_data_context sample_data
  "You are an expert Databricks SQL developer. Generate SQL to transform data based on the user's request.\n\n"
  ++ "## Source Table Information\n\n" ++ schema_context
  ++ "\n\n## Sample Data (first 5 rows)\n\n" ++ sample_context
  ++ "\n\n## User Request\n\n" ++ user_request
  ++ "\n\n## Target Layer\n\nCreate the output table in the `" ++ target_schema ++ "` schema.\n\n"
  ++ "## Rules\n\n"
  ++ "1. Use CREATE OR REPLACE TABLE " ++ catalog ++ "." ++ target_schema ++ ".<table_name> AS SELECT ...\n"
  ++ "2. Generate a descriptive target table name based on the transformation\n"
  ++ "3. Handle NULL values appropriately\n"
  ++ "4. Use proper Databricks/Spark SQL syntax\n"
  ++ "5. Add SQL comments explaining key transformation steps\n"
  ++ "6. For deduplication, use ROW_NUMBER() with appropriate ordering\n"
  ++ "7. For name standardization, use INITCAP() for proper case\n"
  ++ "8. For email standardization, use LOWER()\n"
  ++ "9. Preserve data types appropriately\n\n"
  ++ "## Response Format\n\n"
  ++ "Return ONLY a valid JSON object with this exact structure (no markdown, no extra text):\n\n"
  ++ "\x7b\n    \"target_table\": \"" ++ catalog ++ "." ++ target_schema ++ ".table_name\",\n"
  ++ "    \"sql\": \"CREATE OR REPLACE TABLE ... (full SQL statement)\",\n"
  ++ "    \"transformations_applied\": [\"list\", \"of\", \"transformations\"],\n"
  ++ "    \"explanation\": \"Brief description of what the SQL does\",\n"
  ++ "    \"estimated_impact\": \x7b\n"
  ++ "        \"rows_before\": " ++ toString ((table_schema.row_count).getD 0) ++ ",\n"
  ++ "        \"estimated_rows_after\": <your estimate>,\n"
  ++ "        \"columns_modified\": [\"list of modified columns\"]\n"
  ++ "    \x7d\n\x7d\n\nReturn ONLY the JSON object, nothing else."

/-! ### LLM response parsing (from `LLMService`) -/

/-- Suffix of `s` after the first occurrence of `delim` (`none` when the
delimiter does not occur). -/
def afterFirstOcc (delim : List Char) : List Char → Option (List Char)
  | [] => if delim.isEmpty then some [] else none
  | s@(_ :: t) =>
    if startsWithL delim s then some (s.drop delim.length)
    else afterFirstOcc delim t

/-- Prefix of `s` before the first occurrence of `delim` (all of `s` when
the delimiter does not occur). -/
def beforeFirstOcc (delim : List Char) : List Char → List Char
  | [] => []
  | s@(c :: t) =>
    if startsWithL delim s then []
    else c :: beforeFirstOcc delim t

/-- Does `\}` followed by the lookahead `(?!.*\})` fail here?  Without
`DOTALL`, `.*\}` only sees the rest of the current line, so the lookahead
finds a later `\x7d` only before the next newline. -/
def braceOnLine (t : List Char) : Bool :=
  (t.takeWhile (fun c => c != '\n')).contains '\x7d'

/-- Leftmost match of `re.search(r'\}(?!.*\})', text)`: the prefix of the
text up to and including the matched closing brace. -/
def truncAux : List Char → Option (List Char)
  | [] => none
  | c :: t =>
    if c == '\x7d' && !(braceOnLine t) then some [c]
    else (truncAux t).map (fun r => c :: r)

/-- Model of `LLMService._parse_json_response`: strip code fences and
commentary around the JSON payload, then decode it; a decode failure is
reported as the `ValueError` the Python code raises. -/
def parse_json_response (json_loads : String → Except String Json) (response : String) :
    Except String Json :=
  let text := sStrip response
  let text :=
    if isSubS "```json" text then
      ⟨beforeFirstOcc "```".data ((afterFirstOcc "```json".data text.data).getD [])⟩
    else if isSubS "```" text then
      (⟨beforeFirstOcc "```".data ((afterFirstOcc "```".data text.data).getD [])⟩ : String)
    else text
  let text := sStrip text
  let text :=
    if startsWithS "\x7b" text then text
    else
      let d := text.data.dropWhile (fun c => c != '\x7b')
      if d.isEmpty then text else (⟨d⟩ : String)
  let text :=
    if startsWithL "\x7d".data text.data.reverse then text
    else
      match truncAux text.data with
      | some pfx => (⟨pfx⟩ : String)
      | none => text
  match json_loads text with
  | .ok j => .ok j
  | .error e =>
    .error ("Failed to parse JSON response: " ++ e ++ "\nResponse was: "
      ++ (⟨response.data.take 500⟩ : String))

/-- The `if "estimated_impact" in data: ...` block of
`generate_transform_sql`: the membership test and the `.get` calls follow
Python semantics on each decoded shape (a `.get` on a non-dict value, or
`in` on a non-iterable value, raises). -/
def extract_impact (data : Json) : Except String (Option Int × Option (List String)) :=
  match data with
  | .obj _ =>
    match data.lookup "estimated_impact" with
    | some impact =>
      match impact with
      | .obj _ =>
        .ok ((impact.lookup "estimated_rows_after").bind Json.asInt,
             (impact.lookup "columns_modified").bind Json.asStrList)
      | _ => .error ("'" ++ impact.pyTypeName ++ "' object has no attribute 'get'")
    | none => .ok (none, none)
  | .str s =>
    if isSubS "estimated_impact" s then .error "string indices must be integers"
    else .ok (none, none)
  | .arr xs =>
    if xs.any (fun j => match j with | .str s => s == "estimated_impact" | _ => false) then
      .error "list indices must be integers or slices, not str"
    else .ok (none, none)
  | _ => .error ("argument of type '" ++ data.pyTypeName ++ "' is not iterable")

/-- Model of `LLMService.generate_transform_sql`: build the prompt, call
the LLM, parse the reply and assemble a `TransformPlan`; exceptions from
any stage propagate. -/
def generate_transform_sql (llm : Llm) (user_request : String)
    (table_schema : TableSchema) (sample_data : QueryResult)
    (target_schema : String) (catalog : String) : Except String TransformPlan :=
  let prompt := build_transform_prompt user_request table_schema sample_data target_schema catalog
  match llm.call_claude prompt 4096 with
  | .error e => .error e
  | .ok response =>
    match parse_json_response llm.json_loads response with
    | .error e => .error e
    | .ok data =>
      match extract_impact data with
      | .error e => .error e
      | .ok impact =>
        match data.item "target_table" with
        | .error e => .error e
        | .ok tt =>
          match data.item "sql" with
          | .error e => .error e
          | .ok sq =>
            .ok { target_table := tt.pyStr
                  sql := sq.pyStr
                  transformations_applied :=
                    ((data.lookup "transformations_applied").bind Json.asStrList).getD []
                  explanation := ((data.lookup "explanation").map Json.pyStr).getD ""
                  estimated_rows_after := impact.1
                  columns_modified := impact.2 }

/-! ### Agent data model (from `transform_agent.py`) -/

/-- Conversation state (`AgentState` enum). -/
inductive AgentState where
  | IDLE
  | AWAITING_CONFIRMATION
  | EXECUTING
  deriving DecidableEq

/-- The `value` attribute of each enum member. -/
def AgentState.value : AgentState → String
  | .IDLE => "idle"
  | .AWAITING_CONFIRMATION => "awaiting"
  | .EXECUTING => "executing"

/-- Kind of user request (`UserIntent` enum). -/
inductive UserIntent where
  | QUESTION
  | TRANSFORM
  | COMMAND
  | UNCLEAR
  deriving DecidableEq

/-- A transform awaiting confirmation (`PendingTransform` dataclass). -/
structure PendingTransform where
  plan : TransformPlan
  source_table : String
  source_schema : TableSchema
  user_request : String

/-- Result of an executed transform (`TransformResult` dataclass). -/
structure TransformResult where
  success : Bool
  target_table : String
  rows_created : Int
  message : String
  sql_executed : String

/-- The mutable fields of a `TransformAgent` instance. -/
structure AgentSt where
  state : AgentState
  pending_transform : Option PendingTransform
  last_result : Option TransformResult
  last_mentioned_table : Option (String × String)

/-- The agent's two service collaborators. -/
structure Env where
  db : Db
  llm : Llm

/-- Fields as initialised by `TransformAgent.__init__`. -/
def initial_state : AgentSt :=
  { state := .IDLE, pending_transform := none, last_result := none,
    last_mentioned_table := none }

/-- Result of one `chat` call: the new session state, the textual
response, and the list of SQL texts passed to `db.execute_command`
during the call (so that "executes exactly once" is observable). -/
structure ChatOut where
  st : AgentSt
  response : String
  executed : List String

/-- Wrap a handler that issues no SQL command. -/
def noExec (p : AgentSt × String) : ChatOut := ⟨p.1, p.2, []⟩

/-! ### Table resolution (`TransformAgent._identify_table`) -/

/-- Match test applied to each listed table: exact case-insensitive
substring, or the name with all `raw_` / `stg_` occurrences removed when
the cleaned name is longer than two characters. -/
def table_matches (request_lower : String) (table : String) : Bool :=
  isSubS (sLower table) request_lower ||
  (let clean_name : String :=
     ⟨removeAllL "stg_".data (removeAllL "raw_".data (sLower table).data)⟩
   isSubS clean_name request_lower && decide (clean_name.length > 2))

/-- Scan the schema namespaces in priority order; a failing
`list_tables` is skipped and the scan continues. -/
def identify_scan (db : Db) (request_lower : String) : List String → Option (String × String)
  | [] => none
  | schema :: rest =>
    match db.list_tables schema with
    | .error _ => identify_scan db request_lower rest
    | .ok tables =>
      match tables.find? (fun t => table_matches request_lower t) with
      | some t => some (t, schema)
      | none => identify_scan db request_lower rest

/-- Model of `TransformAgent._identify_table`. -/
def identify_table (db : Db) (user_request : String) : Option (String × String) :=
  let request_lower := sLower user_request
  match identify_scan db request_lower ["bronze", "silver", "gold"] with
  | some r => some r
  | none =>
    match findDotted user_request.data with
    | some (schema, table) =>
      if db.table_exists table schema then some (table, schema) else none
    | none => none

/-- Python truthiness of the resolved pair's first component (the agent
tests `if not table:` / `if table:`, so an empty table name behaves like
no table at all). -/
def found_table : Option (String × String) → Option (String × String)
  | some (t, s) => if t = "" then none else some (t, s)
  | none => none

/-! ### Intent detection (`TransformAgent._detect_intent`) -/

/-- Model of `TransformAgent._detect_intent`.  The instance state is a
parameter because the Python method receives `self`; its body reads only
`self.db` (through `_identify_table`) besides the message. -/
def detect_intent (env : Env) (st : AgentSt) (message : String) : UserIntent :=
  let message_lower := sLower message
  if patAny question_patterns message_lower then .QUESTION
  else if patAny transform_patterns message_lower then .TRANSFORM
  else if (found_table (identify_table env.db message)).isSome
      && action_words.any (fun w => isSubS w message_lower) then .TRANSFORM
  else if wordCount message.data < 5 then .UNCLEAR
  else .UNCLEAR

/-! ### Response builders -/

/-- Python's error text for applying the `,` format spec to `None`
(raised when an optional row count is formatted while absent). -/
def noneFormatError : String :=
  "unsupported format string passed to NoneType.__format__"

/-- Model of `TransformAgent._show_help` (fixed text). -/
def show_help : String :=
  "## 🤖 Data Transform Agent - Help\n\n### Ask Questions\n  • \"What columns are in raw_customers?\"\n  • \"How many rows are in the customers table?\"\n  • \"Show me a preview of the data\"\n  • \"What tables are available?\"\n\n### Transform Data\n  • \"Clean raw_customers, remove nulls, dedupe by contact_id\"\n  • \"Standardize emails to lowercase\"\n  • \"Aggregate sales by region, save to gold\"\n\n### Commands\n  • `show tables` - List all available tables\n  • `describe <table>` - Show table schema and sample data\n  • `status` - Show agent status\n  • `help` - Show this message\n\n### During Confirmation\n  • `confirm` / `yes` - Execute the transform\n  • `cancel` / `no` - Cancel and start over\n  • `show sql` - View the generated SQL\n"

/-- Model of `TransformAgent._handle_generic_question` (fixed text; the
argument is unused by the Python body). -/
def handle_generic_question (question : String) : String :=
  "I'm not sure how to answer that question. Here's what I can help with:\n\n**Questions I can answer:**\n  • \"What columns are in raw_customers?\"\n  • \"How many rows are in bronze.raw_customers?\"\n  • \"Show me a preview of the customers table\"\n  • \"What tables are available?\"\n\n**Transformations I can do:**\n  • \"Clean raw_customers, remove nulls, dedupe by contact_id\"\n  • \"Standardize emails to lowercase\"\n\n**Commands:**\n  • `show tables` - List all tables\n  • `describe <table>` - See table details\n  • `help` - Full help guide\n"

/-- Model of `TransformAgent._ask_which_table`. -/
def ask_which_table (db : Db) (action : String) : String :=
  let tables :=
    (["bronze", "silver", "gold"].map (fun schema =>
      match db.list_tables schema with
      | .ok ts => ts.map (fun t => "`" ++ schema ++ "." ++ t ++ "`")
      | .error _ => [])).flatten
  let tables_str := if tables.isEmpty then "No tables found" else String.intercalate ", " tables
  "Which table would you like to " ++ action ++ "?\n\n**Available tables:** " ++ tables_str
    ++ "\n\n**Example:** \"What columns are in raw_customers?\"\n"

/-- Model of `TransformAgent._ask_for_table_clarification`. -/
def ask_for_table_clarification (db : Db) (user_request : String) : String :=
  let available :=
    (["bronze", "silver", "gold"].map (fun schema =>
      match db.list_tables schema with
      | .ok ts => ts.map (fun t => schema ++ "." ++ t)
      | .error _ => [])).flatten
  if available.isEmpty then "❌ No tables found. Please create some tables first."
  else
    let tables_list := String.intercalate "\n" (available.map (fun t => "  • `" ++ t ++ "`"))
    "I couldn't identify which table you want to transform.\n\n**Available tables:**\n"
      ++ tables_list
      ++ "\n\n**Please try again with the table name, for example:**\n  • \"Clean bronze.raw_customers and remove nulls\"\n  • \"Transform raw_customers to silver\"\n"

/-- Upper-case one ASCII character (for `schema.upper()`). -/
def pyUpperChar (c : Char) : Char :=
  match asciiLowerPairs.find? (fun p => p.2 == c) with
  | some p => p.1
  | none => c

/-- Model of Python `str.upper` on ASCII strings. -/
def sUpper (s : String) : String := ⟨s.data.map pyUpperChar⟩

/-- Model of `TransformAgent._list_tables` (per-schema and per-table
failures are swallowed, degrading the listing). -/
def list_tables_cmd (db : Db) : String :=
  let lines := ["## 📋 Available Tables\n"] ++
    (["bronze", "silver", "gold"].map (fun schema =>
      match db.list_tables schema with
      | .error _ => []
      | .ok tables =>
        match tables with
        | [] => []
        | _ =>
          ("### " ++ sUpper schema) ::
          (tables.map (fun table =>
            match db.get_table_schema table schema true with
            | .ok ts =>
              match ts.row_count with
              | some rc => "  • `" ++ schema ++ "." ++ table ++ "` (" ++ commaFmt rc ++ " rows)"
              | none => "  • `" ++ schema ++ "." ++ table ++ "`"
            | .error _ => "  • `" ++ schema ++ "." ++ table ++ "`")) ++ [""])).flatten
  String.intercalate "\n" lines

/-- Model of `TransformAgent._describe_table_columns`. -/
def describe_table_columns (db : Db) (table schema : String) : String :=
  match db.get_table_schema table schema true with
  | .error e => "❌ Error getting columns: " ++ e
  | .ok ts =>
    match ts.row_count with
    | none => "❌ Error getting columns: " ++ noneFormatError
    | some rc =>
      let lines :=
        ["## 📋 Columns in `" ++ schema ++ "." ++ table ++ "`\n",
         "**Total Columns:** " ++ toString ts.columns.length ++ "\n"] ++
        (ts.columns.map (fun col =>
          let nullable := if col.nullable then "nullable" else "not null"
          "  • **" ++ col.name ++ "** (`" ++ col.data_type ++ "`) - " ++ nullable)) ++
        ["\n**Rows in table:** " ++ commaFmt rc,
         "\n*Tip: Say `describe " ++ schema ++ "." ++ table ++ "` to see sample data too.*"]
      String.intercalate "\n" lines

/-- Model of `TransformAgent._show_table_preview`. -/
def show_table_preview (db : Db) (table schema : String) : String :=
  match db.get_table_schema table schema true with
  | .error e => "❌ Error previewing table: " ++ e
  | .ok ts =>
    match db.get_sample_data table schema 5 with
    | .error e => "❌ Error previewing table: " ++ e
    | .ok sample =>
      match ts.row_count with
      | none => "❌ Error previewing table: " ++ noneFormatError
      | some rc =>
        let lines :=
          ["## 📊 Preview: `" ++ schema ++ "." ++ table ++ "`\n",
           "**Total Rows:** " ++ commaFmt rc ++ "\n",
           "### Sample Data (5 rows):", "```",
           String.intercalate " | " (ts.columns.map (fun c => c.name)),
           (⟨List.replicate 70 '-'⟩ : String)] ++
          (sample.rows.map (fun row =>
            String.intercalate " | " (row.map (fun v =>
              match v with
              | .null => "NULL"
              | _ => (⟨(Cell.pyStr v).data.take 15⟩ : String))))) ++
          ["```"]
        String.intercalate "\n" lines

/-- Core of `TransformAgent._describe_table` once a (table, schema) pair
is fixed: records the mention, then fetches and renders, surfacing
fetch errors. -/
def describe_table_core (env : Env) (st : AgentSt) (table schema : String) :
    AgentSt × String :=
  let st1 := { st with last_mentioned_table := some (table, schema) }
  match env.db.get_table_schema table schema true with
  | .error e => (st1, "❌ Error describing table: " ++ e)
  | .ok ts =>
    match env.db.get_sample_data table schema 3 with
    | .error e => (st1, "❌ Error describing table: " ++ e)
    | .ok sample =>
      match ts.row_count with
      | none => (st1, "❌ Error describing table: " ++ noneFormatError)
      | some rc =>
        let lines :=
          ["## 📊 " ++ ts.full_name ++ "\n",
           "**Rows:** " ++ commaFmt rc ++ "\n",
           "### Columns:"] ++
          (ts.columns.map (fun col => "  • `" ++ col.name ++ "`: " ++ col.data_type)) ++
          ["\n### Sample Data (3 rows):", "```",
           String.intercalate " | " (ts.columns.map (fun c => c.name)),
           (⟨List.replicate 60 '-'⟩ : String)] ++
          (sample.rows.map (fun row =>
            String.intercalate " | " (row.map (fun v =>
              match v with
              | .null => "NULL"
              | _ => (⟨(Cell.pyStr v).data.take 20⟩ : String))))) ++
          ["```"]
        (st1, String.intercalate "\n" lines)

/-- Model of `TransformAgent._describe_table`: parse the (possibly
backticked, possibly dotted) reference, probing bronze→silver→gold for a
bare name. -/
def describe_table (env : Env) (st : AgentSt) (table_ref : String) : AgentSt × String :=
  let parts := (splitOnChar '.' (removeAllL "`".data table_ref.data)).map
    (fun l => (⟨l⟩ : String))
  match parts with
  | [schema, table] => describe_table_core env st table schema
  | [table] =>
    match ["bronze", "silver", "gold"].find? (fun s => env.db.table_exists table s) with
    | some schema => describe_table_core env st table schema
    | none =>
      (st, "❌ Table `" ++ table ++ "` not found in bronze, silver, or gold schemas.")
  | _ => (st, "❌ Invalid table reference: `" ++ table_ref ++ "`")

/-- Model of `TransformAgent._show_status`. -/
def show_status (env : Env) (st : AgentSt) : String :=
  let lines :=
    ["## 🔄 Agent Status\n",
     "**State:** " ++ st.state.value,
     "**Connected to:** " ++ env.db.host,
     "**Catalog:** " ++ env.db.catalog] ++
    (match st.pending_transform with
     | some pt =>
       ["\n**Pending Transform:**",
        "  • Source: " ++ pt.source_table,
        "  • Target: " ++ pt.plan.target_table]
     | none => []) ++
    (match st.last_result with
     | some lr =>
       ["\n**Last Result:**",
        "  • " ++ (if lr.success then "✅ Success" else "❌ Failed"),
        "  • Table: " ++ lr.target_table,
        "  • Rows: " ++ commaFmt lr.rows_created]
     | none => [])
  String.intercalate "\n" lines

/-! ### Question handling (`TransformAgent._handle_question`) -/

/-- Phrases routing a question to the column description. -/
def column_phrases : List String :=
  ["column", "columns", "field", "fields", "schema",
   "what are the", "what is in", "structure"]

/-- Phrases routing a question to the data preview. -/
def data_phrases : List String :=
  ["how many rows", "row count", "how much data", "sample",
   "show me data", "what does", "look like", "preview"]

/-- Phrases routing a question to the table listing. -/
def tables_phrases : List String :=
  ["what tables", "which tables", "available tables",
   "list tables", "show tables", "tables do"]

/-- Phrases routing a question to the help text. -/
def capability_phrases : List String :=
  ["what can you", "how do i", "how to", "help me"]

/-- Anaphoric references accepted while answering questions. -/
def question_anaphora : List String :=
  ["this table", "that table", "the table", "it"]

/-- Anaphoric references accepted while handling transform requests. -/
def transform_anaphora : List String :=
  ["this table", "that table", "the table", "it "]

/-- Model of `TransformAgent._handle_question`. -/
def handle_question (env : Env) (st : AgentSt) (question : String) : AgentSt × String :=
  let question_lower := sLower question
  let t0 := found_table (identify_table env.db question)
  let tOpt := found_table
    (match t0 with
     | some r => some r
     | none =>
       match st.last_mentioned_table with
       | some lm =>
         if question_anaphora.any (fun w => isSubS w question_lower) then some lm else none
       | none => none)
  if column_phrases.any (fun p => isSubS p question_lower) then
    match tOpt with
    | some (table, schema) =>
      ({ st with last_mentioned_table := some (table, schema) },
       describe_table_columns env.db table schema)
    | none => (st, ask_which_table env.db "see the columns of")
  else if data_phrases.any (fun p => isSubS p question_lower) then
    match tOpt with
    | some (table, schema) =>
      ({ st with last_mentioned_table := some (table, schema) },
       show_table_preview env.db table schema)
    | none => (st, ask_which_table env.db "preview")
  else if tables_phrases.any (fun p => isSubS p question_lower) then
    (st, list_tables_cmd env.db)
  else
    match tOpt with
    | some (table, schema) =>
      describe_table env { st with last_mentioned_table := some (table, schema) }
        (schema ++ "." ++ table)
    | none =>
      if capability_phrases.any (fun p => isSubS p question_lower) then (st, show_help)
      else (st, handle_generic_question question)

/-- Model of `TransformAgent._handle_unclear_intent`. -/
def handle_unclear_intent (env : Env) (st : AgentSt) (message : String) : AgentSt × String :=
  match found_table (identify_table env.db message) with
  | some (table, schema) =>
    ({ st with last_mentioned_table := some (table, schema) },
     "I found table `" ++ schema ++ "." ++ table
       ++ "` in your message. What would you like to do?\n\n**Options:**\n  • \"Show me the columns\" - See table structure\n  • \"Preview the data\" - See sample rows\n  • \"Clean it and remove nulls\" - Start a transformation\n\nOr be more specific about what you'd like to know or do!\n")
  | none => (st, handle_generic_question message)

/-! ### Transform flow -/

/-- Aggregation vocabulary that routes an unlabelled request to gold. -/
def agg_words : List String := ["aggregate", "summary", "report", "metrics"]

/-- Model of `TransformAgent._determine_target_layer`. -/
def determine_target_layer (user_request source_schema : String) : String :=
  let request_lower := sLower user_request
  if isSubS "gold" request_lower then "gold"
  else if isSubS "silver" request_lower then "silver"
  else if agg_words.any (fun w => isSubS w request_lower) then "gold"
  else if source_schema = "bronze" then "silver"
  else if source_schema = "silver" then "gold"
  else "silver"

/-- Model of `TransformAgent._format_plan_for_confirmation`; formatting
the source row count raises when it is absent, which the caller's
`except` turns into an error reply. -/
def format_plan_for_confirmation (plan : TransformPlan) (source_schema : TableSchema) :
    Except String String :=
  match source_schema.row_count with
  | none => .error noneFormatError
  | some rc =>
    let lines :=
      ["## 📋 Transform Plan\n",
       "**Source:** `" ++ source_schema.full_name ++ "` (" ++ commaFmt rc ++ " rows)\n",
       "**Target:** `" ++ plan.target_table ++ "`\n",
       "### Transformations:"] ++
      (plan.transformations_applied.map (fun t => "  • " ++ t)) ++
      ["\n**Explanation:** " ++ plan.explanation ++ "\n"] ++
      (match plan.estimated_rows_after with
       | some n => if n ≠ 0 then ["**Estimated Output:** ~" ++ commaFmt n ++ " rows\n"] else []
       | none => []) ++
      ["### Generated SQL:", "```sql", plan.sql, "```\n", "---", "**Commands:**",
       "  • `confirm` - Execute this transform",
       "  • `cancel` - Abort and start over",
       "  • `show sql` - Show SQL again"]
    .ok (String.intercalate "\n" lines)

/-- Error wrapper used by `_handle_transform_request`'s `except` clause. -/
def transform_error_msg (e : String) : String :=
  "❌ **Error processing request:**\n\n" ++ e
    ++ "\n\nPlease try rephrasing or use `help` to see available commands."

/-- Model of `TransformAgent._handle_transform_request`.  Note that the
mention is recorded before the fallible fetches (as in the source), so an
error after that point keeps the updated mention. -/
def handle_transform_request (env : Env) (st : AgentSt) (user_request : String) :
    AgentSt × String :=
  let t0 := found_table (identify_table env.db user_request)
  let src := found_table
    (match t0 with
     | some r => some r
     | none =>
       match st.last_mentioned_table with
       | some lm =>
         if transform_anaphora.any (fun w => isSubS w (sLower user_request)) then some lm
         else none
       | none => none)
  match src with
  | none => (st, ask_for_table_clarification env.db user_request)
  | some (source_table, source_schema_name) =>
    let st1 := { st with last_mentioned_table := some (source_table, source_schema_name) }
    match env.db.get_table_schema source_table source_schema_name true with
    | .error e => (st1, transform_error_msg e)
    | .ok table_schema =>
      match env.db.get_sample_data source_table source_schema_name 5 with
      | .error e => (st1, transform_error_msg e)
      | .ok sample_data =>
        let target_schema := determine_target_layer user_request source_schema_name
        match generate_transform_sql env.llm user_request table_schema sample_data
            target_schema env.db.catalog with
        | .error e => (st1, transform_error_msg e)
        | .ok plan =>
          let st2 := { st1 with
            pending_transform := some
              { plan := plan,
                source_table := source_schema_name ++ "." ++ source_table,
                source_schema := table_schema,
                user_request := user_request },
            state := .AWAITING_CONFIRMATION }
          match format_plan_for_confirmation plan table_schema with
          | .error e => (st2, transform_error_msg e)
          | .ok resp => (st2, resp)

/-! ### Execution and confirmation (`TransformAgent`) -/

/-- Last dotted component of a table name (`target_table.split('.')[-1]`). -/
def lastDottedPart (s : String) : String :=
  ⟨((splitOnChar '.' s.data).getLast?).getD []⟩

/-- Model of `TransformAgent._format_success_message`. -/
def format_success_message (target_table : String) (row_count : Int) : String :=
  "## ✅ Transform Complete!\n\n**Created:** `" ++ target_table ++ "`\n**Rows:** "
    ++ commaFmt row_count
    ++ "\n\nYou can now:\n- Query the new table in Databricks\n- Use it as a source for further transformations\n- Ask me to create another transform\n\n**Example:** \"What columns are in "
    ++ lastDottedPart target_table ++ "?\"\n"

/-- The execution-failure reply, embedding the backend error text. -/
def exec_failed_msg (e : String) : String :=
  "❌ **Execution failed:**\n\n```\n" ++ e
    ++ "\n```\n\nPlease check the SQL and try again."

/-- Model of `TransformAgent._execute_pending_transform`.  The transient
`EXECUTING` state is overwritten on every exit path within the call; the
returned `executed` list records the single `execute_command` attempt. -/
def execute_pending_transform (env : Env) (st : AgentSt) : ChatOut :=
  match st.pending_transform with
  | none => ⟨{ st with state := .IDLE }, "❌ No pending transform to execute.", []⟩
  | some pt =>
    let plan := pt.plan
    match env.db.execute_command plan.sql with
    | .error e =>
      ⟨{ st with state := .IDLE, pending_transform := none }, exec_failed_msg e, [plan.sql]⟩
    | .ok _ =>
      match env.db.execute_query ("SELECT COUNT(*) FROM " ++ plan.target_table) with
      | .error e =>
        ⟨{ st with state := .IDLE, pending_transform := none }, exec_failed_msg e, [plan.sql]⟩
      | .ok result =>
        let row_count : Int :=
          match result.rows with
          | [] => 0
          | r :: _ => (r.headD Cell.null).asIntD
        let lr : TransformResult :=
          { success := true, target_table := plan.target_table,
            rows_created := row_count,
            message := "Transform executed successfully",
            sql_executed := plan.sql }
        ⟨{ st with state := .IDLE, pending_transform := none, last_result := some lr },
          format_success_message plan.target_table row_count, [plan.sql]⟩

/-- Model of `TransformAgent._cancel_pending_transform`. -/
def cancel_pending_transform (st : AgentSt) : AgentSt × String :=
  ({ st with pending_transform := none, state := .IDLE },
   "🚫 Transform cancelled. Ready for a new request.")

/-- Model of `TransformAgent._show_pending_sql`. -/
def show_pending_sql (st : AgentSt) : String :=
  match st.pending_transform with
  | none => "No pending transform."
  | some pt =>
    "## Generated SQL\n```sql\n" ++ pt.plan.sql
      ++ "\n```\n\n**Commands:** `confirm` to execute, `cancel` to abort.\n"

/-- The fixed confirm-or-cancel prompt. -/
def confirmation_prompt_text : String :=
  "I have a transform ready to execute. Please respond with:\n\n  • `confirm` or `yes` - Execute the transform\n  • `cancel` or `no` - Cancel and start over\n  • `show sql` - View the SQL again\n"

/-- Model of `TransformAgent._handle_confirmation_unclear` (the message
argument is unused by the Python body). -/
def handle_confirmation_unclear (user_message : String) : String :=
  confirmation_prompt_text

/-! ### The entry point (`TransformAgent.chat`) -/

/-- Confirm synonyms accepted while awaiting confirmation. -/
def confirm_words : List String := ["confirm", "yes", "y", "execute", "run"]

/-- Cancel synonyms accepted while awaiting confirmation. -/
def cancel_words : List String := ["cancel", "no", "n", "abort"]

/-- Tail of the message after the first space (`message.split(" ", 1)[1]`). -/
def afterFirstSpaceS (s : String) : String :=
  match s.data.dropWhile (fun c => c != ' ') with
  | [] => ""
  | _ :: t => ⟨t⟩

/-- Model of `TransformAgent.chat`, one user turn. -/
def chat (env : Env) (st : AgentSt) (user_message : String) : ChatOut :=
  let message := sStrip user_message
  let message_lower := sLower message
  if st.state = .AWAITING_CONFIRMATION then
    if confirm_words.contains message_lower then execute_pending_transform env st
    else if cancel_words.contains message_lower then noExec (cancel_pending_transform st)
    else if message_lower == "show sql" || message_lower == "sql" then
      noExec (st, show_pending_sql st)
    else noExec (st, handle_confirmation_unclear user_message)
  else if message_lower == "help" || message_lower == "?" then noExec (st, show_help)
  else if message_lower == "show tables" || message_lower == "list tables"
      || message_lower == "tables" then
    noExec (st, list_tables_cmd env.db)
  else if startsWithS "describe " message_lower || startsWithS "desc " message_lower then
    noExec (describe_table env st (sStrip (afterFirstSpaceS message)))
  else if message_lower == "status" || message_lower == "state" then
    noExec (st, show_status env st)
  else
    match detect_intent env st message with
    | .QUESTION => noExec (handle_question env st message)
    | .TRANSFORM => noExec (handle_transform_request env st message)
    | _ => noExec (handle_unclear_intent env st message)

/-- Fold `chat` over a sequence of user messages. -/
def run_chat (env : Env) (st : AgentSt) (msgs : List String) : AgentSt :=
  msgs.foldl (fun s m => (chat env s m).st) st

/-! ### Example environments (used by concrete witnesses) -/

/-- A small healthy backend. -/
def ex_db : Db :=
  { catalog := "workspace", host := "dbc.example.com",
    list_tables := fun _ => .ok [],
    table_exists := fun _ _ => false,
    get_table_schema := fun _ _ _ => .error "offline",
    get_sample_data := fun _ _ _ => .error "offline",
    execute_command := fun _ => .ok (),
    execute_query := fun _ => .ok ⟨["count"], [[.int 5]], 1⟩ }

/-- An LLM endpoint that always fails (plans in the examples are built
directly). -/
def ex_llm : Llm :=
  { call_claude := fun _ _ => .error "offline",
    json_loads := fun _ => .error "invalid" }

/-- Environment used by witnesses. -/
def ex_env : Env := ⟨ex_db, ex_llm⟩

/-- A concrete generated plan. -/
def ex_plan : TransformPlan :=
  { target_table := "workspace.silver.t_clean",
    sql := "CREATE OR REPLACE TABLE workspace.silver.t_clean AS SELECT 1",
    transformations_applied := ["dedupe"], explanation := "cleans",
    estimated_rows_after := none, columns_modified := none }

/-- A concrete pending transform. -/
def ex_pt : PendingTransform :=
  { plan := ex_plan, source_table := "bronze.t",
    source_schema := ⟨"workspace", "bronze", "t", [], some 3⟩,
    user_request := "clean t" }

/-- A session awaiting confirmation of `ex_pt`. -/
def ex_await : AgentSt :=
  { state := .AWAITING_CONFIRMATION, pending_transform := some ex_pt,
    last_result := none, last_mentioned_table := none }

/-- A backend whose `execute_command` fails. -/
def ex_db_fail : Db :=
  { ex_db with execute_command := fun _ => .error "PARSE_SYNTAX_ERROR near SELECT" }

/-- Environment with the failing backend. -/
def ex_env_fail : Env := ⟨ex_db_fail, ex_llm⟩

/-! ### Supporting lemmas -/

theorem startsWithL_self_append (p r : List Char) : startsWithL p (p ++ r) = true := by
  induction p with
  | nil => rfl
  | cons c t ih => simp [startsWithL, ih]

theorem isSubstring_of_startsWith {p s : List Char} (h : startsWithL p s = true) :
    isSubstring p s = true := by
  cases s <;> simp [isSubstring, h]

theorem isSubstring_append_left (l : List Char) {p s : List Char}
    (h : isSubstring p s = true) : isSubstring p (l ++ s) = true := by
  induction l with
  | nil => simpa using h
  | cons c t ih =>
    simp only [List.cons_append, isSubstring, Bool.or_eq_true]
    exact Or.inr ih

theorem isSubstring_sandwich (a e b : List Char) :
    isSubstring e (a ++ (e ++ b)) = true :=
  isSubstring_append_left a (isSubstring_of_startsWith (startsWithL_self_append e b))

/-! ### State-shape lemmas for the chat handlers -/

theorem describe_table_core_state (env : Env) (st : AgentSt) (t s : String) :
    (describe_table_core env st t s).1 = { st with last_mentioned_table := some (t, s) } := by
  simp only [describe_table_core]
  split
  · rfl
  · split
    · rfl
    · split <;> rfl

theorem describe_table_state (env : Env) (st : AgentSt) (r : String) :
    (describe_table env st r).1 = st ∨
    ∃ t s, (describe_table env st r).1 = { st with last_mentioned_table := some (t, s) } := by
  simp only [describe_table]
  split
  · exact Or.inr ⟨_, _, describe_table_core_state env st _ _⟩
  · split
    · exact Or.inr ⟨_, _, describe_table_core_state env st _ _⟩
    · exact Or.inl rfl
  · exact Or.inl rfl

theorem handle_question_state (env : Env) (st : AgentSt) (q : String) :
    (handle_question env st q).1 = st ∨
    ∃ t s, (handle_question env st q).1 = { st with last_mentioned_table := some (t, s) } := by
  simp only [handle_question]
  split
  · split
    · exact Or.inr ⟨_, _, rfl⟩
    · exact Or.inl rfl
  · split
    · split
      · exact Or.inr ⟨_, _, rfl⟩
      · exact Or.inl rfl
    · split
      · exact Or.inl rfl
      · split
        · rcases describe_table_state env _ _ with h | ⟨t', s', h⟩
          · exact Or.inr ⟨_, _, h⟩
          · exact Or.inr ⟨t', s', h.trans rfl⟩
        · split
          · exact Or.inl rfl
          · exact Or.inl rfl

theorem handle_unclear_intent_state (env : Env) (st : AgentSt) (m : String) :
    (handle_unclear_intent env st m).1 = st ∨
    ∃ t s, (handle_unclear_intent env st m).1 = { st with last_mentioned_table := some (t, s) } := by
  simp only [handle_unclear_intent]
  split
  · exact Or.inr ⟨_, _, rfl⟩
  · exact Or.inl rfl

theorem handle_transform_request_state (env : Env) (st : AgentSt) (m : String) :
    (handle_transform_request env st m).1 = st ∨
    (∃ t s, (handle_transform_request env st m).1 =
       { st with last_mentioned_table := some (t, s) }) ∨
    (∃ t s pt, (handle_transform_request env st m).1 =
       { st with last_mentioned_table := some (t, s),
                 pending_transform := some pt, state := .AWAITING_CONFIRMATION }) := by
  simp only [handle_transform_request]
  split
  · exact Or.inl rfl
  · split
    · exact Or.inr (Or.inl ⟨_, _, rfl⟩)
    · split
      · exact Or.inr (Or.inl ⟨_, _, rfl⟩)
      · split
        · exact Or.inr (Or.inl ⟨_, _, rfl⟩)
        · split <;> exact Or.inr (Or.inr ⟨_, _, _, rfl⟩)

theorem execute_pending_transform_state (env : Env) (st : AgentSt) :
    (execute_pending_transform env st).st.state = .IDLE ∧
    (execute_pending_transform env st).st.pending_transform = none ∧
    (execute_pending_transform env st).st.last_mentioned_table = st.last_mentioned_table := by
  rcases hp : st.pending_transform with _ | pt
  · simp [execute_pending_transform, hp]
  · simp only [execute_pending_transform, hp]
    split
    · simp
    · split <;> simp

theorem execute_pending_transform_executed (env : Env) (st : AgentSt) (pt : PendingTransform)
    (hp : st.pending_transform = some pt) :
    (execute_pending_transform env st).executed = [pt.plan.sql] ∧
    (execute_pending_transform env st).st.pending_transform = none := by
  simp only [execute_pending_transform, hp]
  split
  · simp
  · split <;> simp

/-- One chat step preserves the session invariant and never ends in
`EXECUTING`. -/
theorem chat_step_inv (env : Env) (st : AgentSt) (m : String)
    (h1 : st.pending_transform.isSome ↔ st.state = .AWAITING_CONFIRMATION)
    (h2 : st.state ≠ .EXECUTING) :
    ((chat env st m).st.pending_transform.isSome ↔
      (chat env st m).st.state = .AWAITING_CONFIRMATION) ∧
    (chat env st m).st.state ≠ .EXECUTING := by
  simp only [chat]
  by_cases hA : st.state = .AWAITING_CONFIRMATION
  · simp only [hA, if_true]
    split_ifs
    · have h := execute_pending_transform_state env st
      rw [h.1, h.2.1]
      simp
    · simp [cancel_pending_transform, noExec]
    · exact ⟨by simpa [noExec] using h1, by simpa [noExec] using h2⟩
    · exact ⟨by simpa [noExec] using h1, by simpa [noExec] using h2⟩
  · have hpn : st.pending_transform = none := by
      cases ho : st.pending_transform with
      | none => rfl
      | some p => exact absurd (h1.mp (by simp [ho])) hA
    simp only [hA, if_false]
    split_ifs
    · exact ⟨by simpa [noExec, hpn] using hA, by simpa [noExec] using h2⟩
    · exact ⟨by simpa [noExec, hpn] using hA, by simpa [noExec] using h2⟩
    · rcases describe_table_state env st (sStrip (afterFirstSpaceS (sStrip m))) with h | ⟨t, s, h⟩
      · simp only [noExec, h]
        exact ⟨h1, h2⟩
      · simp only [noExec, h]
        exact ⟨by simpa [hpn] using hA, by simpa using h2⟩
    · exact ⟨by simpa [noExec, hpn] using hA, by simpa [noExec] using h2⟩
    · rcases hi : detect_intent env st (sStrip m) with _ | _ | _ | _
      · simp only [hi]
        rcases handle_question_state env st (sStrip m) with h | ⟨t, s, h⟩
        · simp only [noExec, h]; exact ⟨h1, h2⟩
        · simp only [noExec, h]
          exact ⟨by simpa [hpn] using hA, by simpa using h2⟩
      · simp only [hi]
        rcases handle_transform_request_state env st (sStrip m) with h | ⟨t, s, h⟩ | ⟨t, s, pt, h⟩
        · simp only [noExec, h]; exact ⟨h1, h2⟩
        · simp only [noExec, h]
          exact ⟨by simpa [hpn] using hA, by simpa using h2⟩
        · simp only [noExec, h]
          simp
      · simp only [hi]
        rcases handle_unclear_intent_state env st (sStrip m) with h | ⟨t, s, h⟩
        · simp only [noExec, h]; exact ⟨h1, h2⟩
        · simp only [noExec, h]
          exact ⟨by simpa [hpn] using hA, by simpa using h2⟩
      · simp only [hi]
        rcases handle_unclear_intent_state env st (sStrip m) with h | ⟨t, s, h⟩
        · simp only [noExec, h]; exact ⟨h1, h2⟩
        · simp only [noExec, h]
          exact ⟨by simpa [hpn] using hA, by simpa using h2⟩

/-- From a clean IDLE session, one chat step ends either clean in IDLE or
properly pending in AWAITING_CONFIRMATION. -/
theorem chat_from_idle (env : Env) (st : AgentSt) (m : String)
    (hs : st.state = .IDLE) (hpn : st.pending_transform = none) :
    ((chat env st m).st.state = .IDLE ∧ (chat env st m).st.pending_transform = none) ∨
    ((chat env st m).st.state = .AWAITING_CONFIRMATION ∧
      (chat env st m).st.pending_transform.isSome) := by
  simp only [chat]
  have hA : ¬ st.state = .AWAITING_CONFIRMATION := by simp [hs]
  simp only [hA, if_false]
  split_ifs
  · exact Or.inl ⟨by simpa [noExec] using hs, by simpa [noExec] using hpn⟩
  · exact Or.inl ⟨by simpa [noExec] using hs, by simpa [noExec] using hpn⟩
  · rcases describe_table_state env st (sStrip (afterFirstSpaceS (sStrip m))) with h | ⟨t, s, h⟩
    · simp only [noExec, h]
      exact Or.inl ⟨hs, hpn⟩
    · simp only [noExec, h]
      exact Or.inl ⟨by simpa using hs, by simpa using hpn⟩
  · exact Or.inl ⟨by simpa [noExec] using hs, by simpa [noExec] using hpn⟩
  · rcases hi : detect_intent env st (sStrip m) with _ | _ | _ | _
    · simp only [hi]
      rcases handle_question_state env st (sStrip m) with h | ⟨t, s, h⟩
      · simp only [noExec, h]; exact Or.inl ⟨hs, hpn⟩
      · simp only [noExec, h]
        exact Or.inl ⟨by simpa using hs, by simpa using hpn⟩
    · simp only [hi]
      rcases handle_transform_request_state env st (sStrip m) with h | ⟨t, s, h⟩ | ⟨t, s, pt, h⟩
      · simp only [noExec, h]; exact Or.inl ⟨hs, hpn⟩
      · simp only [noExec, h]
        exact Or.inl ⟨by simpa using hs, by simpa using hpn⟩
      · simp only [noExec, h]
        exact Or.inr ⟨by simp, by simp⟩
    · simp only [hi]
      rcases handle_unclear_intent_state env st (sStrip m) with h | ⟨t, s, h⟩
      · simp only [noExec, h]; exact Or.inl ⟨hs, hpn⟩
      · simp only [noExec, h]
        exact Or.inl ⟨by simpa using hs, by simpa using hpn⟩
    · simp only [hi]
      rcases handle_unclear_intent_state env st (sStrip m) with h | ⟨t, s, h⟩
      · simp only [noExec, h]; exact Or.inl ⟨hs, hpn⟩
      · simp only [noExec, h]
        exact Or.inl ⟨by simpa using hs, by simpa using hpn⟩

/-! ### Claim C2 -/

/-- Claim C2: starting from the initial session, after any sequence of
chat calls the pending transform exists iff the state is
AWAITING_CONFIRMATION, and the state is never EXECUTING between calls
(every prefix of a message sequence is itself such a sequence). -/
theorem C2_session_invariant (env : Env) (msgs : List String) :
    ((run_chat env initial_state msgs).pending_transform.isSome ↔
      (run_chat env initial_state msgs).state = .AWAITING_CONFIRMATION) ∧
    (run_chat env initial_state msgs).state ≠ .EXECUTING := by
  suffices h : ∀ (st : AgentSt),
      (st.pending_transform.isSome ↔ st.state = .AWAITING_CONFIRMATION) →
      st.state ≠ .EXECUTING →
      ((run_chat env st msgs).pending_transform.isSome ↔
        (run_chat env st msgs).state = .AWAITING_CONFIRMATION) ∧
      (run_chat env st msgs).state ≠ .EXECUTING by
    exact h initial_state (by simp [initial_state]) (by simp [initial_state])
  induction msgs with
  | nil => intro st a b; exact ⟨a, b⟩
  | cons m rest ih =>
    intro st a b
    have step := chat_step_inv env st m a b
    exact ih (chat env st m).st step.1 step.2

/-! ### Claim C1 -/

/-- Claim C1: while a session awaits confirmation of a pending transform,
a confirm synonym executes the pending plan exactly once and clears it; a
cancel synonym clears it without executing and returns to IDLE; "show
sql"/"sql" redisplay the plan SQL and leave the whole session state
untouched; and every other message yields the fixed confirm-or-cancel
prompt with the session state untouched. -/
theorem C1_confirmation_gate (env : Env) (st : AgentSt) (pt : PendingTransform)
    (hst : st.state = .AWAITING_CONFIRMATION)
    (hp : st.pending_transform = some pt) :
    (∀ m, confirm_words.contains (sLower (sStrip m)) = true →
       (chat env st m).executed = [pt.plan.sql] ∧
       (chat env st m).st.pending_transform = none) ∧
    (∀ m, cancel_words.contains (sLower (sStrip m)) = true →
       (chat env st m).executed = [] ∧
       (chat env st m).st.pending_transform = none ∧
       (chat env st m).st.state = .IDLE ∧
       (chat env st m).response = "🚫 Transform cancelled. Ready for a new request.") ∧
    (∀ m, (sLower (sStrip m) = "show sql" ∨ sLower (sStrip m) = "sql") →
       (chat env st m).st = st ∧ (chat env st m).executed = [] ∧
       (chat env st m).response =
         "## Generated SQL\n```sql\n" ++ pt.plan.sql
           ++ "\n```\n\n**Commands:** `confirm` to execute, `cancel` to abort.\n") ∧
    (∀ m, confirm_words.contains (sLower (sStrip m)) = false →
          cancel_words.contains (sLower (sStrip m)) = false →
          sLower (sStrip m) ≠ "show sql" → sLower (sStrip m) ≠ "sql" →
       (chat env st m).st = st ∧ (chat env st m).executed = [] ∧
       (chat env st m).response = confirmation_prompt_text) := by
  have hch : ∀ m, chat env st m =
      (if confirm_words.contains (sLower (sStrip m)) then execute_pending_transform env st
       else if cancel_words.contains (sLower (sStrip m)) then noExec (cancel_pending_transform st)
       else if sLower (sStrip m) == "show sql" || sLower (sStrip m) == "sql" then
         noExec (st, show_pending_sql st)
       else noExec (st, confirmation_prompt_text)) := by
    intro m
    simp [chat, hst, handle_confirmation_unclear]
  refine ⟨?_, ?_, ?_, ?_⟩
  · intro m hm
    rw [hch m]
    simp only [hm, if_true]
    exact execute_pending_transform_executed env st pt hp
  · intro m hm
    have hm' : sLower (sStrip m) = "cancel" ∨ sLower (sStrip m) = "no" ∨
        sLower (sStrip m) = "n" ∨ sLower (sStrip m) = "abort" := by
      simpa [cancel_words] using List.mem_of_elem_eq_true hm
    have hcf : sLower (sStrip m) ∉ confirm_words := by
      rcases hm' with h | h | h | h <;> rw [h] <;> decide
    have hcc : sLower (sStrip m) ∈ cancel_words := List.mem_of_elem_eq_true hm
    rw [hch m]
    simp [hcf, hcc, cancel_pending_transform, noExec]
  · intro m hm
    rw [hch m]
    rcases hm with h | h <;> rw [h] <;>
      simp [show "show sql" ∉ confirm_words from by decide,
            show "sql" ∉ confirm_words from by decide,
            show "show sql" ∉ cancel_words from by decide,
            show "sql" ∉ cancel_words from by decide,
            noExec, show_pending_sql, hp]
  · intro m hm1 hm2 hm3 hm4
    rw [hch m]
    simp only [hm1, hm2, Bool.false_eq_true, if_false,
      beq_eq_false_iff_ne.mpr hm3, beq_eq_false_iff_ne.mpr hm4,
      Bool.or_self, noExec]
    refine ⟨?_, ?_, ?_⟩ <;> trivial

/-- Witness for C1: concrete confirm, cancel, show-sql and unrelated
messages against a concrete pending session. -/
theorem C1_confirmation_gate_witness :
    ((chat ex_env ex_await " YES ").executed = [ex_plan.sql] ∧
     (chat ex_env ex_await " YES ").st.pending_transform = none) ∧
    ((chat ex_env ex_await "Abort").executed = [] ∧
     (chat ex_env ex_await "Abort").st.pending_transform = none ∧
     (chat ex_env ex_await "Abort").st.state = .IDLE ∧
     (chat ex_env ex_await "Abort").response = "🚫 Transform cancelled. Ready for a new request.") ∧
    ((chat ex_env ex_await "show SQL").st = ex_await ∧
     (chat ex_env ex_await "show SQL").executed = [] ∧
     (chat ex_env ex_await "show SQL").response =
       "## Generated SQL\n```sql\n" ++ ex_pt.plan.sql
         ++ "\n```\n\n**Commands:** `confirm` to execute, `cancel` to abort.\n") ∧
    ((chat ex_env ex_await "help").st = ex_await ∧
     (chat ex_env ex_await "help").executed = [] ∧
     (chat ex_env ex_await "help").response = confirmation_prompt_text) :=
  ⟨(C1_confirmation_gate ex_env ex_await ex_pt rfl rfl).1 " YES " (by decide),
   (C1_confirmation_gate ex_env ex_await ex_pt rfl rfl).2.1 "Abort" (by decide),
   (C1_confirmation_gate ex_env ex_await ex_pt rfl rfl).2.2.1 "show SQL" (by decide),
   (C1_confirmation_gate ex_env ex_await ex_pt rfl rfl).2.2.2 "help"
     (by decide) (by decide) (by decide) (by decide)⟩

/-! ### Claim C4 -/

/-- Claim C4: if executing the confirmed plan's SQL, or the subsequent
row count, raises a backend error, the session ends the turn in IDLE with
the pending transform cleared, the SQL was attempted exactly once (no
retry), and the backend error text appears in the response; and from a
clean IDLE session every turn (in particular every failing
transform-request turn) ends either clean in IDLE or properly pending in
AWAITING_CONFIRMATION — never stuck in EXECUTING or with an orphaned
pending transform. -/
theorem C4_failure_returns_to_idle (env : Env) (st : AgentSt) (pt : PendingTransform)
    (m e : String)
    (hst : st.state = .AWAITING_CONFIRMATION)
    (hp : st.pending_transform = some pt)
    (hm : confirm_words.contains (sLower (sStrip m)) = true) :
    (env.db.execute_command pt.plan.sql = .error e →
       (chat env st m).st.state = .IDLE ∧
       (chat env st m).st.pending_transform = none ∧
       (chat env st m).executed = [pt.plan.sql] ∧
       isSubS e (chat env st m).response = true) ∧
    (env.db.execute_command pt.plan.sql = .ok () →
     env.db.execute_query ("SELECT COUNT(*) FROM " ++ pt.plan.target_table) = .error e →
       (chat env st m).st.state = .IDLE ∧
       (chat env st m).st.pending_transform = none ∧
       (chat env st m).executed = [pt.plan.sql] ∧
       isSubS e (chat env st m).response = true) ∧
    (∀ (st2 : AgentSt) (m2 : String), st2.state = .IDLE → st2.pending_transform = none →
       ((chat env st2 m2).st.state = .IDLE ∧ (chat env st2 m2).st.pending_transform = none) ∨
       ((chat env st2 m2).st.state = .AWAITING_CONFIRMATION ∧
         (chat env st2 m2).st.pending_transform.isSome)) := by
  have hch : chat env st m = execute_pending_transform env st := by
    simp only [chat, hst, hm, if_true]
  refine ⟨?_, ?_, fun st2 m2 h1 h2 => chat_from_idle env st2 m2 h1 h2⟩
  · intro hcmd
    rw [hch]
    simp only [execute_pending_transform, hp, hcmd]
    refine ⟨by trivial, by trivial, by trivial, ?_⟩
    show isSubstring e.data (exec_failed_msg e).data = true
    have : (exec_failed_msg e).data =
        "❌ **Execution failed:**\n\n```\n".data ++
          (e.data ++ "\n```\n\nPlease check the SQL and try again.".data) := by
      simp [exec_failed_msg, String.data_append]
    rw [this]
    exact isSubstring_sandwich _ _ _
  · intro hcmd hq
    rw [hch]
    simp only [execute_pending_transform, hp, hcmd, hq]
    refine ⟨by trivial, by trivial, by trivial, ?_⟩
    show isSubstring e.data (exec_failed_msg e).data = true
    have : (exec_failed_msg e).data =
        "❌ **Execution failed:**\n\n```\n".data ++
          (e.data ++ "\n```\n\nPlease check the SQL and try again.".data) := by
      simp [exec_failed_msg, String.data_append]
    rw [this]
    exact isSubstring_sandwich _ _ _

/-- Witness for C4: a concrete failing backend. -/
theorem C4_failure_returns_to_idle_witness :
    (chat ex_env_fail ex_await "confirm").st.state = .IDLE ∧
    (chat ex_env_fail ex_await "confirm").st.pending_transform = none ∧
    (chat ex_env_fail ex_await "confirm").executed = [ex_plan.sql] ∧
    isSubS "PARSE_SYNTAX_ERROR near SELECT" (chat ex_env_fail ex_await "confirm").response = true :=
  (C4_failure_returns_to_idle ex_env_fail ex_await ex_pt "confirm"
    "PARSE_SYNTAX_ERROR near SELECT" rfl rfl (by decide)).1 rfl

/-! ### Claim C9 -/

/-- Claim C9: each chat turn either leaves `lastMentionedTable` unchanged
or overwrites it with some identified (table, schema) pair — it is never
reset to none — and every turn taken while awaiting confirmation (the
confirmed execution, its failure, cancel, show sql, and the unclear
prompt) leaves it unchanged. -/
theorem C9_last_mentioned_never_cleared (env : Env) (st : AgentSt) (m : String) :
    ((chat env st m).st.last_mentioned_table = st.last_mentioned_table ∨
     ∃ t s, (chat env st m).st.last_mentioned_table = some (t, s)) ∧
    (st.state = .AWAITING_CONFIRMATION →
      (chat env st m).st.last_mentioned_table = st.last_mentioned_table) := by
  constructor
  · simp only [chat]
    by_cases hA : st.state = .AWAITING_CONFIRMATION
    · simp only [hA, if_true]
      split_ifs
      · exact Or.inl (execute_pending_transform_state env st).2.2
      · exact Or.inl rfl
      · exact Or.inl rfl
      · exact Or.inl rfl
    · simp only [hA, if_false]
      split_ifs
      · exact Or.inl rfl
      · exact Or.inl rfl
      · rcases describe_table_state env st (sStrip (afterFirstSpaceS (sStrip m))) with h | ⟨t, s, h⟩
        · simp only [noExec, h]; exact Or.inl trivial
        · simp only [noExec, h]; exact Or.inr ⟨t, s, rfl⟩
      · exact Or.inl rfl
      · rcases hi : detect_intent env st (sStrip m) with _ | _ | _ | _
        · simp only [hi]
          rcases handle_question_state env st (sStrip m) with h | ⟨t, s, h⟩
          · simp only [noExec, h]; exact Or.inl trivial
          · simp only [noExec, h]; exact Or.inr ⟨t, s, rfl⟩
        · simp only [hi]
          rcases handle_transform_request_state env st (sStrip m) with h | ⟨t, s, h⟩ | ⟨t, s, pt, h⟩
          · simp only [noExec, h]; exact Or.inl trivial
          · simp only [noExec, h]; exact Or.inr ⟨t, s, rfl⟩
          · simp only [noExec, h]; exact Or.inr ⟨t, s, rfl⟩
        · simp only [hi]
          rcases handle_unclear_intent_state env st (sStrip m) with h | ⟨t, s, h⟩
          · simp only [noExec, h]; exact Or.inl trivial
          · simp only [noExec, h]; exact Or.inr ⟨t, s, rfl⟩
        · simp only [hi]
          rcases handle_unclear_intent_state env st (sStrip m) with h | ⟨t, s, h⟩
          · simp only [noExec, h]; exact Or.inl trivial
          · simp only [noExec, h]; exact Or.inr ⟨t, s, rfl⟩
  · intro hA
    simp only [chat, hA, if_true]
    split_ifs
    · exact (execute_pending_transform_state env st).2.2
    · rfl
    · rfl
    · rfl

/-- Witness for C9: after a confirmed execution the mention still names
the source table. -/
theorem C9_last_mentioned_never_cleared_witness :
    (chat ex_env
      { ex_await with last_mentioned_table := some ("t", "bronze") }
      "confirm").st.last_mentioned_table = some ("t", "bronze") :=
  (C9_last_mentioned_never_cleared ex_env
    { ex_await with last_mentioned_table := some ("t", "bronze") } "confirm").2 rfl

/-! ### Claim C5 -/

/-- Claim C5: the target-layer function returns "gold" whenever the
request mentions gold (for every source schema); otherwise "silver" on a
silver mention; otherwise "gold" on aggregation vocabulary; otherwise
silver for a bronze source, gold for a silver source, and silver for any
other source. -/
theorem C5_target_layer_policy (req src : String) :
    (isSubS "gold" (sLower req) = true → determine_target_layer req src = "gold") ∧
    (isSubS "gold" (sLower req) = false → isSubS "silver" (sLower req) = true →
      determine_target_layer req src = "silver") ∧
    (isSubS "gold" (sLower req) = false → isSubS "silver" (sLower req) = false →
      agg_words.any (fun w => isSubS w (sLower req)) = true →
      determine_target_layer req src = "gold") ∧
    (isSubS "gold" (sLower req) = false → isSubS "silver" (sLower req) = false →
      agg_words.any (fun w => isSubS w (sLower req)) = false →
      ((src = "bronze" → determine_target_layer req src = "silver") ∧
       (src = "silver" → determine_target_layer req src = "gold") ∧
       (src ≠ "bronze" → src ≠ "silver" → determine_target_layer req src = "silver"))) := by
  unfold determine_target_layer
  refine ⟨fun h => by simp [h], fun h1 h2 => by simp [h1, h2], fun h1 h2 h3 => by simp [h1, h2, h3], ?_⟩
  intro h1 h2 h3
  refine ⟨fun hb => by simp [h1, h2, h3, hb], fun hs => by simp [h1, h2, h3, hs],
          fun hb hs => by simp [h1, h2, h3, hb, hs]⟩

/-- Witness for C5 at concrete inputs. -/
theorem C5_target_layer_policy_witness :
    determine_target_layer "aggregate sales into gold" "bronze" = "gold" ∧
    determine_target_layer "Standardize emails please" "bronze" = "silver" ∧
    determine_target_layer "Standardize emails please" "silver" = "gold" ∧
    determine_target_layer "make a summary report" "gold" = "gold" :=
  ⟨(C5_target_layer_policy "aggregate sales into gold" "bronze").1 (by decide),
   ((C5_target_layer_policy "Standardize emails please" "bronze").2.2.2
      (by decide) (by decide) (by decide)).1 rfl,
   ((C5_target_layer_policy "Standardize emails please" "silver").2.2.2
      (by decide) (by decide) (by decide)).2.1 rfl,
   (C5_target_layer_policy "make a summary report" "gold").2.2.1
      (by decide) (by decide) (by decide)⟩

/-! ### Claim C7 -/

/-- Claim C7: any message matching a question pattern classifies as
QUESTION (the question loop runs before the transform loop), and in
particular "describe how to clean this" is QUESTION, not TRANSFORM. -/
theorem C7_question_patterns_first :
    (∀ (env : Env) (st : AgentSt) (m : String),
       patAny question_patterns (sLower m) = true →
       detect_intent env st m = .QUESTION) ∧
    (∀ (env : Env) (st : AgentSt),
       detect_intent env st "describe how to clean this" = .QUESTION ∧
       detect_intent env st "describe how to clean this" ≠ .TRANSFORM) := by
  have hgen : ∀ (env : Env) (st : AgentSt) (m : String),
      patAny question_patterns (sLower m) = true →
      detect_intent env st m = .QUESTION := by
    intro env st m h
    unfold detect_intent
    simp [h]
  refine ⟨hgen, fun env st => ?_⟩
  have h := hgen env st "describe how to clean this" (by decide)
  exact ⟨h, by rw [h]; intro hc; cases hc⟩

/-- Witness for C7 at a concrete message and environment. -/
theorem C7_question_patterns_first_witness :
    detect_intent ex_env initial_state "what tables do we have" = .QUESTION :=
  (C7_question_patterns_first).1 ex_env initial_state "what tables do we have" (by decide)

/-! ### Claim C3 -/

/-- A three-part dotted name `catalog.schema.table` (the shape the claim
says is asserted at parse time). -/
def is_three_part_name (s : String) : Bool :=
  let parts := splitOnChar '.' s.data
  parts.length == 3 && parts.all (fun p => !p.isEmpty)

/-- A raw LLM reply whose plan has an empty `sql` and a one-part
`target_table`. -/
def c3_reply : String := "\x7b\"target_table\": \"x\", \"sql\": \"\"\x7d"

/-- The decoded form of `c3_reply` under `json.loads`. -/
def c3_json : Json := .obj [("target_table", .str "x"), ("sql", .str "")]

/-- An LLM backend returning `c3_reply`, with `json_loads` behaving as
Python's decoder does on that exact payload. -/
def c3_llm : Llm :=
  { call_claude := fun _ _ => .ok c3_reply,
    json_loads := fun s =>
      if s = c3_reply then .ok c3_json
      else .error "Expecting value: line 1 column 1 (char 0)" }

/-- Source schema snapshot used in the C3 scenario. -/
def c3_ts : TableSchema := ⟨"workspace", "bronze", "t", [], some 0⟩

/-- Sample rows used in the C3 scenario. -/
def c3_qr : QueryResult := ⟨[], [], 0⟩

/-- Counterexample to claim C3: a reply whose `sql` is empty and whose
`target_table` is not a three-part dotted name is returned as a plan, not
rejected — nothing is asserted at parse time. -/
theorem C3_counterexample_no_parse_assertion :
    generate_transform_sql c3_llm "clean t" c3_ts c3_qr "silver" "workspace"
      = .ok { target_table := "x", sql := "", transformations_applied := [],
              explanation := "", estimated_rows_after := none, columns_modified := none } ∧
    is_three_part_name "x" = false ∧
    ("" : String).length = 0 := by
  refine ⟨?_, by decide, rfl⟩
  rfl

/-- Amended claim C3: parsing only requires the decoded reply to contain
`target_table` and `sql` fields — a missing field is rejected as an error
(the `KeyError` surfaces) — and a reply carrying them is returned as a
plan verbatim, with no validation of `sql` non-emptiness or of the
three-part shape of `target_table`, neither at parse time nor before
execution (the confirmed plan's SQL is executed as stored). -/
theorem C3_amended_parse_contract (llm : Llm) (req : String)
    (ts : TableSchema) (qr : QueryResult) (tgt cat r : String) (d : Json)
    (hr : llm.call_claude (build_transform_prompt req ts qr tgt cat) 4096 = .ok r)
    (hd : parse_json_response llm.json_loads r = .ok d) :
    (∀ er cm tv sv, extract_impact d = .ok (er, cm) →
       d.item "target_table" = .ok tv → d.item "sql" = .ok sv →
       generate_transform_sql llm req ts qr tgt cat = .ok
         { target_table := tv.pyStr, sql := sv.pyStr,
           transformations_applied :=
             ((d.lookup "transformations_applied").bind Json.asStrList).getD [],
           explanation := ((d.lookup "explanation").map Json.pyStr).getD "",
           estimated_rows_after := er, columns_modified := cm }) ∧
    (∀ er cm msg, extract_impact d = .ok (er, cm) → d.item "target_table" = .error msg →
       generate_transform_sql llm req ts qr tgt cat = .error msg) ∧
    (∀ er cm tv msg, extract_impact d = .ok (er, cm) → d.item "target_table" = .ok tv →
       d.item "sql" = .error msg →
       generate_transform_sql llm req ts qr tgt cat = .error msg) ∧
    (∀ (env : Env) (st : AgentSt) (pt : PendingTransform),
       st.pending_transform = some pt →
       (execute_pending_transform env st).executed = [pt.plan.sql]) := by
  refine ⟨?_, ?_, ?_, ?_⟩
  · intro er cm tv sv h0 h1 h2
    simp only [generate_transform_sql, hr, hd, h0, h1, h2]
  · intro er cm msg h0 h1
    simp only [generate_transform_sql, hr, hd, h0, h1]
  · intro er cm tv msg h0 h1 h2
    simp only [generate_transform_sql, hr, hd, h0, h1, h2]
  · intro env st pt hp
    exact (execute_pending_transform_executed env st pt hp).1

/-- Witness for the amended C3 at the concrete reply. -/
theorem C3_amended_parse_contract_witness :
    generate_transform_sql c3_llm "clean t" c3_ts c3_qr "silver" "workspace"
      = .ok { target_table := "x", sql := "", transformations_applied := [],
              explanation := "", estimated_rows_after := none, columns_modified := none } :=
  (C3_amended_parse_contract c3_llm "clean t" c3_ts c3_qr "silver" "workspace"
      c3_reply c3_json rfl rfl).1 none none (.str "x") (.str "") rfl rfl rfl

/-! ### Claim C6 -/

/-- Match predicate exactly as the claim words it: the table name
case-insensitively, or with a `raw_`/`stg_` PREFIX stripped when the
stripped stem is longer than 2 characters, occurs as a substring of the
message (claim-side definition, for comparison with `table_matches`). -/
def claim_table_matches (message_lower : String) (table : String) : Bool :=
  let tl := sLower table
  isSubS tl message_lower ||
  (startsWithS "raw_" tl &&
    (decide ((⟨tl.data.drop 4⟩ : String).length > 2) &&
     isSubS (⟨tl.data.drop 4⟩ : String) message_lower)) ||
  (startsWithS "stg_" tl &&
    (decide ((⟨tl.data.drop 4⟩ : String).length > 2) &&
     isSubS (⟨tl.data.drop 4⟩ : String) message_lower))

/-- The claim-side scan, with the same schema order and failure-skipping
as the source. -/
def claim_identify_scan (db : Db) (request_lower : String) :
    List String → Option (String × String)
  | [] => none
  | schema :: rest =>
    match db.list_tables schema with
    | .error _ => claim_identify_scan db request_lower rest
    | .ok tables =>
      match tables.find? (fun t => claim_table_matches request_lower t) with
      | some t => some (t, schema)
      | none => claim_identify_scan db request_lower rest

/-- The claim-side resolver (same dotted fallback as the source). -/
def claim_identify_table (db : Db) (user_request : String) : Option (String × String) :=
  let request_lower := sLower user_request
  match claim_identify_scan db request_lower ["bronze", "silver", "gold"] with
  | some r => some r
  | none =>
    match findDotted user_request.data with
    | some (schema, table) =>
      if db.table_exists table schema then some (table, schema) else none
    | none => none

/-- Backend for the C6 counterexample: one bronze table whose name has
`raw_` in the middle. -/
def c6_db : Db :=
  { catalog := "workspace", host := "h",
    list_tables := fun s => if s = "bronze" then .ok ["a_raw_bcd"] else .ok [],
    table_exists := fun _ _ => false,
    get_table_schema := fun _ _ _ => .error "offline",
    get_sample_data := fun _ _ _ => .error "offline",
    execute_command := fun _ => .error "offline",
    execute_query := fun _ => .error "offline" }

/-- Counterexample to claim C6 as stated: the code removes every
`raw_`/`stg_` occurrence (`str.replace`), not only a leading prefix, so
`bronze.a_raw_bcd` is resolved from a message containing only `a_bcd`,
while the claim's prefix-stripping predicate matches nothing. -/
theorem C6_counterexample_prefix_vs_replace :
    identify_table c6_db "show me a_bcd" = some ("a_raw_bcd", "bronze") ∧
    claim_identify_table c6_db "show me a_bcd" = none := by
  constructor <;> rfl

/-- Amended claim C6: resolution scans bronze, silver, gold in that fixed
order and returns the first table whose lower-cased name — or its name
with every `raw_`/`stg_` occurrence removed, when the cleaned name is
longer than 2 characters — occurs in the message; in particular the
bronze copy shadows an identical silver copy, a failing per-schema
listing is skipped rather than aborting resolution, and when nothing
matches and the message has no dotted reference the result is none. -/
theorem C6_amended_resolution (db : Db) (msg : String) :
    (∀ bl t, db.list_tables "bronze" = .ok bl →
       bl.find? (fun x => table_matches (sLower msg) x) = some t →
       identify_table db msg = some (t, "bronze")) ∧
    (∀ err sl t, db.list_tables "bronze" = .error err →
       db.list_tables "silver" = .ok sl →
       sl.find? (fun x => table_matches (sLower msg) x) = some t →
       identify_table db msg = some (t, "silver")) ∧
    (∀ bl sl gl, db.list_tables "bronze" = .ok bl →
       db.list_tables "silver" = .ok sl →
       db.list_tables "gold" = .ok gl →
       bl.find? (fun x => table_matches (sLower msg) x) = none →
       sl.find? (fun x => table_matches (sLower msg) x) = none →
       gl.find? (fun x => table_matches (sLower msg) x) = none →
       findDotted msg.data = none →
       identify_table db msg = none) := by
  refine ⟨?_, ?_, ?_⟩
  · intro bl t hb hf
    simp only [identify_table, identify_scan, hb, hf]
  · intro err sl t hb hs hf
    simp only [identify_table, identify_scan, hb, hs, hf]
  · intro bl sl gl hb hs hg fb fs fg hdot
    simp only [identify_table, identify_scan, hb, hs, hg, fb, fs, fg, hdot]

/-- Backend where the same table exists in bronze and silver. -/
def c6w_db : Db :=
  { c6_db with list_tables := fun s =>
      if s = "bronze" then .ok ["raw_customers"]
      else if s = "silver" then .ok ["raw_customers"] else .ok [] }

/-- Backend where the bronze listing fails and silver holds the table. -/
def c6f_db : Db :=
  { c6_db with list_tables := fun s =>
      if s = "bronze" then .error "schema bronze unavailable"
      else if s = "silver" then .ok ["raw_customers"] else .ok [] }

/-- Witness for the amended C6: bronze shadows silver, and a bronze
listing failure is skipped. -/
theorem C6_amended_resolution_witness :
    identify_table c6w_db "clean raw_customers now" = some ("raw_customers", "bronze") ∧
    identify_table c6f_db "clean raw_customers now" = some ("raw_customers", "silver") :=
  ⟨(C6_amended_resolution c6w_db "clean raw_customers now").1
      ["raw_customers"] "raw_customers" rfl (by decide),
   (C6_amended_resolution c6f_db "clean raw_customers now").2.1
      "schema bronze unavailable" ["raw_customers"] "raw_customers" rfl rfl (by decide)⟩

/-! ### Claim C8 -/

/-- Backend reporting a `customers` table in bronze. -/
def c8_db_a : Db :=
  { c6_db with list_tables := fun s =>
      if s = "bronze" then .ok ["customers"] else .ok [] }

/-- Backend reporting no tables at all. -/
def c8_db_b : Db :=
  { c6_db with list_tables := fun _ => .ok [] }

/-- Counterexample to claim C8: the same message classifies differently
under two backend table catalogs, because the third detection step
consults `_identify_table` and hence the backend — the classifier is not
a pure function of the message text alone. -/
theorem C8_counterexample_backend_dependence :
    detect_intent ⟨c8_db_a, ex_llm⟩ initial_state "fix customers" = .TRANSFORM ∧
    detect_intent ⟨c8_db_b, ex_llm⟩ initial_state "fix customers" = .UNCLEAR := by
  constructor <;> rfl

/-- `identify_scan` depends on the backend only through `list_tables`. -/
theorem identify_scan_ext (db db' : Db) (rl : String)
    (h1 : ∀ s, db.list_tables s = db'.list_tables s) :
    ∀ l, identify_scan db rl l = identify_scan db' rl l := by
  intro l
  induction l with
  | nil => rfl
  | cons s rest ih =>
    simp only [identify_scan, h1 s, ih]

/-- `identify_table` depends on the backend only through `list_tables`
and `table_exists`. -/
theorem identify_table_ext (db db' : Db) (m : String)
    (h1 : ∀ s, db.list_tables s = db'.list_tables s)
    (h2 : ∀ t s, db.table_exists t s = db'.table_exists t s) :
    identify_table db m = identify_table db' m := by
  simp only [identify_table, identify_scan_ext db db' (sLower m) h1]
  cases findDotted m.data with
  | none => rfl
  | some p => simp only [h2]

/-- Amended claim C8: the intent classifier is a pure function of the
message text and the backend table catalog (the `list_tables` and
`table_exists` results): it ignores the session fields (state, pending
transform, last result, last mentioned table) and any conversation
history, and two invocations agreeing on the message and on those two
backend views return the same intent. -/
theorem C8_amended_classifier_purity :
    (∀ (env : Env) (st st' : AgentSt) (m : String),
       detect_intent env st m = detect_intent env st' m) ∧
    (∀ (env env' : Env) (st st' : AgentSt) (m : String),
       (∀ s, env.db.list_tables s = env'.db.list_tables s) →
       (∀ t s, env.db.table_exists t s = env'.db.table_exists t s) →
       detect_intent env st m = detect_intent env' st' m) := by
  constructor
  · intro env st st' m
    rfl
  · intro env env' st st' m h1 h2
    simp only [detect_intent, identify_table_ext env.db env'.db m h1 h2]

/-- Witness for the amended C8: same backend views, different session
state, pending transform, mention and LLM endpoint — same intent. -/
theorem C8_amended_classifier_purity_witness :
    detect_intent ⟨c8_db_a, ex_llm⟩ initial_state "fix customers" =
      detect_intent ⟨c8_db_a, c3_llm⟩
        { ex_await with last_mentioned_table := some ("customers", "bronze") }
        "fix customers" :=
  (C8_amended_classifier_purity).2 ⟨c8_db_a, ex_llm⟩ ⟨c8_db_a, c3_llm⟩
    initial_state { ex_await with last_mentioned_table := some ("customers", "bronze") }
    "fix customers" (fun _ => rfl) (fun _ _ => rfl)

/-! ### Congruence lemmas for claim C10 -/

theorem dot_mem_pyLower {l : List Char} (h : '.' ∈ l) : '.' ∈ pyLower l := by
  have h2 : pyLowerChar '.' = '.' := rfl
  rw [← h2]
  exact List.mem_map_of_mem pyLowerChar h

theorem findDottedAux_none : ∀ (l : List Char), '.' ∉ l → ∀ run, findDottedAux run l = none := by
  intro l
  induction l with
  | nil => intro _ run; rfl
  | cons c t ih =>
    intro h run
    have hc : c ≠ '.' := fun e => h (e ▸ List.mem_cons_self c t)
    have ht : '.' ∉ t := fun m => h (List.mem_cons_of_mem c m)
    have hc' : (c == '.') = false := beq_eq_false_iff_ne.mpr hc
    simp only [findDottedAux, hc', Bool.false_eq_true, if_false]
    split
    · exact ih ht _
    · exact ih ht _

theorem findDotted_none {l : List Char} (h : '.' ∉ l) : findDotted l = none := by
  simp only [findDotted, findDottedAux_none l h, Option.map_none']

theorem pyIsWs_pyLowerChar (c : Char) : pyIsWs (pyLowerChar c) = pyIsWs c := by
  unfold pyLowerChar
  cases hf : asciiLowerPairs.find? (fun p => p.1 == c) with
  | none => rfl
  | some p =>
    have hm : p ∈ asciiLowerPairs := List.mem_of_find?_eq_some hf
    have hc : p.1 = c := by simpa using List.find?_some hf
    have hall : ∀ q ∈ asciiLowerPairs, pyIsWs q.2 = pyIsWs q.1 := by decide
    rw [← hc]
    exact hall p hm

theorem wordsAux_pyLower : ∀ (l : List Char) (b : Bool), wordsAux (pyLower l) b = wordsAux l b := by
  intro l
  induction l with
  | nil => intro _; rfl
  | cons c t ih =>
    intro b
    simp only [pyLower, List.map_cons, wordsAux, pyIsWs_pyLowerChar]
    rw [show List.map pyLowerChar t = pyLower t from rfl, ih, ih]

theorem wordCount_lower_congr {a b : String} (h : sLower a = sLower b) :
    wordCount a.data = wordCount b.data := by
  have hd : pyLower a.data = pyLower b.data := congrArg String.data h
  calc wordCount a.data = wordsAux (pyLower a.data) false := (wordsAux_pyLower a.data false).symm
    _ = wordsAux (pyLower b.data) false := by rw [hd]
    _ = wordCount b.data := wordsAux_pyLower b.data false

theorem identify_table_congr (db : Db) {a b : String} (hsl : sLower a = sLower b)
    (hfd : findDotted a.data = findDotted b.data) :
    identify_table db a = identify_table db b := by
  simp only [identify_table, hsl, hfd]

theorem detect_intent_congr (env : Env) (st : AgentSt) {a b : String}
    (hsl : sLower a = sLower b) (hfd : findDotted a.data = findDotted b.data) :
    detect_intent env st a = detect_intent env st b := by
  simp only [detect_intent, hsl, identify_table_congr env.db hsl hfd,
    wordCount_lower_congr hsl]

theorem handle_question_congr (env : Env) (st : AgentSt) {a b : String}
    (hsl : sLower a = sLower b) (hfd : findDotted a.data = findDotted b.data) :
    handle_question env st a = handle_question env st b := by
  simp only [handle_question, hsl, identify_table_congr env.db hsl hfd,
    handle_generic_question]

theorem handle_unclear_intent_congr (env : Env) (st : AgentSt) {a b : String}
    (hsl : sLower a = sLower b) (hfd : findDotted a.data = findDotted b.data) :
    handle_unclear_intent env st a = handle_unclear_intent env st b := by
  simp only [handle_unclear_intent, identify_table_congr env.db hsl hfd,
    handle_generic_question]

theorem detect_intent_ne_transform (env : Env) (st : AgentSt) (w : String)
    (h2 : sLower w = w)
    (hnt : patAny transform_patterns w = false)
    (ha : action_words.any (fun x => isSubS x w) = false) :
    detect_intent env st w ≠ .TRANSFORM := by
  simp only [detect_intent, h2, hnt, ha, Bool.and_false, Bool.false_eq_true, if_false]
  split
  · simp
  · split <;> simp

/-- Master congruence: a message whose stripped lower-cased form is the
command word `w` (which contains no dot, is not a describe command, and
matches neither the transform patterns nor the action words) is handled
exactly as `w` itself. -/
theorem chat_congr (env : Env) (st : AgentSt) (v w : String)
    (hv : sLower (sStrip v) = w)
    (h1 : sStrip w = w) (h2 : sLower w = w)
    (hdot : '.' ∉ w.data)
    (hd1 : startsWithS "describe " w = false) (hd2 : startsWithS "desc " w = false)
    (hnt : patAny transform_patterns w = false)
    (ha : action_words.any (fun x => isSubS x w) = false) :
    chat env st v = chat env st w := by
  have hdv : '.' ∉ (sStrip v).data := by
    intro hmem
    exact hdot (hv ▸ dot_mem_pyLower hmem)
  have hfd : findDotted (sStrip v).data = findDotted (sStrip w).data := by
    rw [findDotted_none hdv, h1, findDotted_none hdot]
  have hsl : sLower (sStrip v) = sLower (sStrip w) := by rw [h1, h2, hv]
  simp only [chat, hv, h1, h2, handle_confirmation_unclear]
  by_cases hA : st.state = .AWAITING_CONFIRMATION
  · simp only [hA, if_true]
  · simp only [hA, if_false]
    split_ifs with hb1 hb2 hb3 hb4
    · rfl
    · rfl
    · exfalso
      rw [hd1, hd2] at hb3
      simp at hb3
    · rfl
    · have hdet := detect_intent_congr env st hsl hfd
      rw [h1] at hdet hsl hfd
      rw [hdet]
      rcases hi : detect_intent env st w with _ | _ | _ | _
      · simp only [hi]
        exact congrArg noExec (handle_question_congr env st hsl hfd)
      · exact absurd hi (detect_intent_ne_transform env st w h2 hnt ha)
      · simp only [hi]
        exact congrArg noExec (handle_unclear_intent_congr env st hsl hfd)
      · simp only [hi]
        exact congrArg noExec (handle_unclear_intent_congr env st hsl hfd)

/-! ### Claim C10 -/

/-- The literal command vocabulary handled at the chat entry point. -/
def command_words : List String :=
  ["help", "?", "show tables", "list tables", "tables", "status", "state",
   "confirm", "yes", "y", "execute", "run", "cancel", "no", "n", "abort",
   "show sql", "sql"]

/-- Claim C10: for every command word `w` and every variant `v` differing
only in letter case or surrounding whitespace (so that stripping and
lower-casing `v` yields `w`), the chat entry point handles `v` exactly as
`w`, in every session state. -/
theorem C10_command_case_whitespace (env : Env) (st : AgentSt) (w v : String)
    (hw : w ∈ command_words) (hv : sLower (sStrip v) = w) :
    chat env st v = chat env st w := by
  fin_cases hw <;>
    exact chat_congr env st v _ hv (by decide) (by decide) (by decide)
      (by decide) (by decide) (by decide) (by decide)

/-- Witness for C10: variant forms of confirm and of a listing command at
concrete sessions. -/
theorem C10_command_case_whitespace_witness :
    chat ex_env ex_await "  CONFIRM " = chat ex_env ex_await "confirm" ∧
    chat ex_env initial_state " Show Tables" = chat ex_env initial_state "show tables" :=
  ⟨C10_command_case_whitespace ex_env ex_await "confirm" "  CONFIRM "
      (by decide) (by decide),
   C10_command_case_whitespace ex_env initial_state "show tables" " Show Tables"
      (by decide) (by decide)⟩

end DataAgent
